import Mathlib

/-!
# mrm-node: a shallow embedding of `src/src/mrm-node.cpp`

The class `Mrm_node` drives up to eight identical CAN bus boards, each with
nine analog channels, five switches and three servos.  The embedding below
follows the C++ member functions one by one:

* the object is a record `Mrm_node` that is passed explicitly;
* machine integers are naturals, reduced modulo `2^w` where the C++ type
  truncates: `uint8_t` bytes, `uint16_t` readings, and the millisecond clock,
  which the source keeps in a `uint32_t` (`uint32_t startMs = millis()`), so
  that differences of clock values wrap at `2^32`;
* an access outside an array is undefined behaviour in C++ and is a fault
  `Fault.outOfBounds` here; the polling loop of `started` has fuel and runs
  into `Fault.outOfFuel` when the clock does not advance;
* what the base class and the platform provide (`isForMe`,
  `messageDecodeCommon`, `delayMs`) is a parameter, `External`; the clock
  advances only inside `delayMs`;
* what the class hands to the bus (`messageSend`, `start`) and to the error
  registry (`errorAdd`) is appended to a log in the record.
-/

namespace MrmNode

/-! ## Constants of the absent header `mrm-node.h` -/

/-- Modelled from the spec: `MRM_NODE_ANALOG_COUNT` of the absent header
`mrm-node.h`, the analog channel count (9). -/
def MRM_NODE_ANALOG_COUNT : Nat := 9

/-- Modelled from the spec: `MRM_NODE_SWITCHES_COUNT` of the absent header
`mrm-node.h`, the switch count (5). -/
def MRM_NODE_SWITCHES_COUNT : Nat := 5

/-- Modelled from the spec: `MRM_NODE_SERVO_COUNT` of the absent header
`mrm-node.h`, the servo count (3). -/
def MRM_NODE_SERVO_COUNT : Nat := 3

/-- The remaining constants of `mrm-node.h`, whose values the source does not
show: the opcodes, the inactivity threshold and the sixteen CAN identifiers
`CAN_ID_NODEk_IN`, `CAN_ID_NODEk_OUT`.  The four opcodes that label the cases
of the `switch` in `messageDecode` are pairwise distinct, as C++ demands of
case labels. -/
structure Config where
  COMMAND_NODE_SENDING_SENSORS_1_TO_3 : Nat
  COMMAND_NODE_SENDING_SENSORS_4_TO_6 : Nat
  COMMAND_NODE_SENDING_SENSORS_7_TO_9 : Nat
  COMMAND_NODE_SWITCH_ON : Nat
  COMMAND_NODE_SERVO_SET : Nat
  MRM_NODE_INACTIVITY_ALLOWED_MS : Nat
  CAN_ID_NODE_IN : Nat → Nat
  CAN_ID_NODE_OUT : Nat → Nat
  caseLabelsDistinct :
    [COMMAND_NODE_SENDING_SENSORS_1_TO_3, COMMAND_NODE_SENDING_SENSORS_4_TO_6,
     COMMAND_NODE_SENDING_SENSORS_7_TO_9, COMMAND_NODE_SWITCH_ON].Nodup

/-! ## Data -/

/-- One entry of the base class's `devices` list (the fields this file uses). -/
structure Device where
  number : Nat
  canIdIn : Nat
  canIdOut : Nat
  alive : Bool
  lastReadingsMs : Nat
deriving DecidableEq, Repr

/-- A received CAN frame: identifier and the `uint8_t data[8]` payload. -/
structure CANMessage where
  id : Nat
  data : List Nat
deriving DecidableEq, Repr

/-- Reading `message.data[i]`, a `uint8_t`. -/
def CANMessage.byte (message : CANMessage) (i : Nat) : Nat :=
  message.data.getD i 0 % 256

/-- What `errorMessage` holds after `strcpy` or `sprintf`; the text is kept
as a tag with its arguments. -/
inductive ErrorMessage where
  | empty
  | tooMany (nextFree : Nat)
  | noSwitch
  | doesntExist (deviceNumber : Nat)
  | servoNotFound
  | dead (deviceNumber : Nat)
deriving DecidableEq, Repr

/-- What the class hands to the bus layer of the base class. -/
inductive BusEvent where
  | start (deviceNumber : Nat) (measuringMode : Nat)
  | messageSend (data : List Nat) (deviceNumber : Nat)
deriving DecidableEq, Repr

/-- The object: the members of `Mrm_node` and of its base class that the
functions below read or write, the millisecond clock `millis()`, and the log
of calls into the bus layer and into `errorAdd`. -/
structure Mrm_node where
  devices : List Device
  nextFree : Nat
  readings : List (List Nat)
  switches : List (List Bool)
  servoDegrees : List (List Nat)
  canData : List Nat
  errorMessage : ErrorMessage
  unknownCommands : List CANMessage
  bus : List BusEvent
  ms : Nat
deriving DecidableEq, Repr

/-- The collaborators outside the class: `Board::isForMe`,
`Board::messageDecodeCommon` (it gets the frame, the clock and the device by
reference, and tells whether it consumed the frame) and the platform's
`delayMs(1)`, during which the rest of the system runs. -/
structure External where
  isForMe : Nat → Device → Bool
  messageDecodeCommon : CANMessage → Nat → Device → Device × Bool
  delayMs : Mrm_node → Mrm_node

/-- The ways a run leaves defined behaviour. -/
inductive Fault where
  | outOfBounds
  | outOfFuel
deriving DecidableEq, Repr

/-- Unsigned 32 bit subtraction, as in `millis() - startMs`. -/
def usub32 (a b : Nat) : Nat := (a % 4294967296 + 4294967296 - b % 4294967296) % 4294967296

/-- Writing `row[j] = v` into row `i` of a table; `none` outside the table. -/
def writeCell {α : Type} (table : List (List α)) (i j : Nat) (v : α) : Option (List (List α)) :=
  match table[i]? with
  | none => none
  | some row => if j < row.length then some (table.set i (row.set j v)) else none

/-- Reading `table[i][j]`; `none` outside the table. -/
def readCell {α : Type} (table : List (List α)) (i j : Nat) : Option α :=
  match table[i]? with
  | none => none
  | some row => row[j]?

/-! ## Constructor and `add` -/

/-- The constructor: three vectors of `maxNumberOfBoards` zeroed rows. -/
def Mrm_node.new (maxNumberOfBoards : Nat) : Mrm_node :=
  { devices := []
    nextFree := 0
    readings := List.replicate maxNumberOfBoards (List.replicate MRM_NODE_ANALOG_COUNT 0)
    switches := List.replicate maxNumberOfBoards (List.replicate MRM_NODE_SWITCHES_COUNT false)
    servoDegrees := List.replicate maxNumberOfBoards (List.replicate MRM_NODE_SERVO_COUNT 0)
    canData := List.replicate 8 0
    errorMessage := ErrorMessage.empty
    unknownCommands := []
    bus := []
    ms := 0 }

/-- The address table of `Mrm_node::add`, the `switch (nextFree)`. -/
def addressFor (cfg : Config) (nextFree : Nat) : Option (Nat × Nat) :=
  match nextFree with
  | 0 => some (cfg.CAN_ID_NODE_IN 0, cfg.CAN_ID_NODE_OUT 0)
  | 1 => some (cfg.CAN_ID_NODE_IN 1, cfg.CAN_ID_NODE_OUT 1)
  | 2 => some (cfg.CAN_ID_NODE_IN 2, cfg.CAN_ID_NODE_OUT 3)
  | 3 => some (cfg.CAN_ID_NODE_IN 3, cfg.CAN_ID_NODE_OUT 4)
  | 4 => some (cfg.CAN_ID_NODE_IN 4, cfg.CAN_ID_NODE_OUT 4)
  | 5 => some (cfg.CAN_ID_NODE_IN 5, cfg.CAN_ID_NODE_OUT 5)
  | 6 => some (cfg.CAN_ID_NODE_IN 6, cfg.CAN_ID_NODE_OUT 6)
  | 7 => some (cfg.CAN_ID_NODE_IN 7, cfg.CAN_ID_NODE_OUT 7)
  | _ => none

/-- The loop `for i < count: table[row][i] = v`. -/
def fillRow {α : Type} (table : List (List α)) (row : Nat) (v : α) : Nat → Option (List (List α))
  | 0 => some table
  | count + 1 =>
    match fillRow table row v count with
    | none => none
    | some t => writeCell t row count v

/-- Modelled from the spec: `SensorBoard::add(deviceName, canIn, canOut)` of
the base class, which is not in the source file.  The registry assigns the
ordinal numbers at registration time: the device gets the next ordinal
number and is appended to `devices`. -/
def sensorBoardAdd (canIn canOut : Nat) (s : Mrm_node) : Mrm_node :=
  { s with
    devices := s.devices ++
      [{ number := s.nextFree, canIdIn := canIn, canIdOut := canOut, alive := false,
         lastReadingsMs := 0 }]
    nextFree := s.nextFree + 1 }

/-- `Mrm_node::add`. -/
def add (cfg : Config) (s : Mrm_node) : Except Fault Mrm_node :=
  match addressFor cfg s.nextFree with
  | none => .ok { s with errorMessage := ErrorMessage.tooMany s.nextFree }
  | some (canIn, canOut) =>
    match fillRow s.switches s.nextFree false MRM_NODE_SWITCHES_COUNT with
    | none => .error Fault.outOfBounds
    | some sw =>
      match fillRow s.servoDegrees s.nextFree 0xFFFF MRM_NODE_SERVO_COUNT with
      | none => .error Fault.outOfBounds
      | some sd => .ok (sensorBoardAdd canIn canOut { s with switches := sw, servoDegrees := sd })

/-- The clock `millis()`, an `unsigned long` of 32 bits. -/
def millis (s : Mrm_node) : Nat := s.ms % 4294967296

/-! ## `messageDecode` -/

/-- The value stored for channel `startIndex + i`:
`(message.data[2 * i + 1] << 8) | message.data[2 * i + 2]`, as `uint16_t`. -/
def unpackReading (message : CANMessage) (i : Nat) : Nat :=
  ((message.byte (2 * i + 1) <<< 8) ||| message.byte (2 * i + 2)) % 65536

/-- The loop `for i < count: readings[number][startIndex + i] = ...` (the
source runs it with `count = 3`, that is `i <= 2`). -/
def storeReadings (message : CANMessage) (number startIndex : Nat)
    (readings : List (List Nat)) : Nat → Option (List (List Nat))
  | 0 => some readings
  | i + 1 =>
    match storeReadings message number startIndex readings i with
    | none => none
    | some r => writeCell r number (startIndex + i) (unpackReading message i)

/-- The tail of the loop body, `if (any) for ...; return true`, for a sensor
group that starts at `startIndex`. -/
def storeGroup (message : CANMessage) (number startIndex : Nat) (s : Mrm_node) :
    Except Fault (Bool × Mrm_node) :=
  match storeReadings message number startIndex s.readings 3 with
  | none => .error Fault.outOfBounds
  | some r => .ok (true, { s with readings := r })

/-- The body of the loop of `messageDecode` for the device at position `k`
of `devices`, which `isForMe` has accepted.  `device` is a C++ reference, so
every write to it lands in `devices[k]`. -/
def decodeFor (cfg : Config) (ext : External) (message : CANMessage) (k : Nat)
    (device : Device) (s : Mrm_node) : Except Fault (Bool × Mrm_node) :=
  let common := ext.messageDecodeCommon message (millis s) device
  let device := common.1
  if common.2 then .ok (true, { s with devices := s.devices.set k device })
  else if message.byte 0 = cfg.COMMAND_NODE_SENDING_SENSORS_1_TO_3 then
    storeGroup message device.number 0 { s with devices := s.devices.set k device }
  else if message.byte 0 = cfg.COMMAND_NODE_SENDING_SENSORS_4_TO_6 then
    storeGroup message device.number 3 { s with devices := s.devices.set k device }
  else if message.byte 0 = cfg.COMMAND_NODE_SENDING_SENSORS_7_TO_9 then
    storeGroup message device.number 6
      { s with devices := s.devices.set k { device with lastReadingsMs := millis s } }
  else if message.byte 0 = cfg.COMMAND_NODE_SWITCH_ON then
    let switchNumber := message.byte 1 >>> 1
    if switchNumber > 4 then
      .ok (false, { s with devices := s.devices.set k device,
                           errorMessage := ErrorMessage.noSwitch })
    else
      match writeCell s.switches device.number switchNumber ((message.byte 1 &&& 1) != 0) with
      | none => .error Fault.outOfBounds
      | some sw =>
        .ok (true, { s with switches := sw,
                            devices := s.devices.set k { device with lastReadingsMs := millis s } })
  else
    .ok (true, { s with devices := s.devices.set k device,
                        unknownCommands := s.unknownCommands ++ [message] })

/-- The loop `for (Device& device : devices) if (isForMe(...)) ...` over the
devices from position `k` on. -/
def decodeLoop (cfg : Config) (ext : External) (message : CANMessage) (s : Mrm_node) :
    List Device → Nat → Except Fault (Bool × Mrm_node)
  | [], _ => .ok (false, s)
  | device :: rest, k =>
    if ext.isForMe message.id device then decodeFor cfg ext message k device s
    else decodeLoop cfg ext message s rest (k + 1)

/-- `Mrm_node::messageDecode`. -/
def messageDecode (cfg : Config) (ext : External) (message : CANMessage) (s : Mrm_node) :
    Except Fault (Bool × Mrm_node) :=
  decodeLoop cfg ext message s s.devices 0

/-! ## `started` -/

/-- Modelled from the spec: `start(&devices[deviceNumber], 0)` of the base
class, which is not in the source file.  Each attempt sends a start request
addressed to the board: a start request for the board goes to the bus. -/
def start (deviceNumber measuringMode : Nat) (s : Mrm_node) : Mrm_node :=
  { s with bus := s.bus ++ [BusEvent.start deviceNumber measuringMode] }

/-- The loop `while (millis() - startMs < 50)` of `started`: `true` when a
poll saw `millis() - lastReadingsMs < 100`, `false` when the window ran
out. -/
def pollWindow (ext : External) (deviceNumber startMs : Nat) :
    Nat → Mrm_node → Except Fault (Bool × Mrm_node)
  | 0, _ => .error Fault.outOfFuel
  | fuel + 1, s =>
    if usub32 (millis s) startMs < 50 then
      match s.devices[deviceNumber]? with
      | none => .error Fault.outOfBounds
      | some device =>
        if usub32 (millis s) device.lastReadingsMs < 100 then .ok (true, s)
        else pollWindow ext deviceNumber startMs fuel (ext.delayMs s)
    else .ok (false, s)

/-- The loop `for (uint8_t i = 0; i < 8; i++)` of `started` with `tries`
rounds left, and the two statements after it. -/
def probe (ext : External) (fuel deviceNumber : Nat) :
    Nat → Mrm_node → Except Fault (Bool × Mrm_node)
  | 0, s => .ok (false, { s with errorMessage := ErrorMessage.dead deviceNumber })
  | tries + 1, s =>
    let s1 := start deviceNumber 0 s
    match pollWindow ext deviceNumber (millis s1) fuel s1 with
    | .error e => .error e
    | .ok (true, s2) => .ok (true, s2)
    | .ok (false, s2) => probe ext fuel deviceNumber tries s2

/-- `Mrm_node::started`; `fuel` bounds the polls of one window. -/
def started (cfg : Config) (ext : External) (fuel deviceNumber : Nat) (s : Mrm_node) :
    Except Fault (Bool × Mrm_node) :=
  match s.devices[deviceNumber]? with
  | none => .error Fault.outOfBounds
  | some device =>
    if usub32 (millis s) device.lastReadingsMs > cfg.MRM_NODE_INACTIVITY_ALLOWED_MS
        ∨ device.lastReadingsMs = 0 then
      probe ext fuel deviceNumber 8 s
    else .ok (true, s)

/-! ## `reading`, `switchRead`, `servoWrite` -/

/-- `Mrm_node::reading`. -/
def reading (cfg : Config) (ext : External) (fuel receiverNumberInSensor deviceNumber : Nat)
    (s : Mrm_node) : Except Fault (Nat × Mrm_node) :=
  if deviceNumber ≥ s.nextFree ∨ receiverNumberInSensor > MRM_NODE_ANALOG_COUNT then
    .ok (0, { s with errorMessage := ErrorMessage.doesntExist deviceNumber })
  else
    match started cfg ext fuel deviceNumber s with
    | .error e => .error e
    | .ok (true, s1) =>
      match readCell s1.readings deviceNumber receiverNumberInSensor with
      | none => .error Fault.outOfBounds
      | some v => .ok (v, s1)
    | .ok (false, s1) => .ok (0, s1)

/-- `Mrm_node::switchRead`. -/
def switchRead (switchNumber deviceNumber : Nat) (s : Mrm_node) :
    Except Fault (Bool × Mrm_node) :=
  if deviceNumber ≥ s.nextFree ∨ switchNumber ≥ MRM_NODE_SWITCHES_COUNT then
    .ok (false, { s with errorMessage := ErrorMessage.doesntExist deviceNumber })
  else
    match readCell s.switches deviceNumber switchNumber with
    | none => .error Fault.outOfBounds
    | some v => .ok (v, s)

/-- The four bytes `canData[0..3]` that `servoWrite` fills in. -/
def servoFrame (cfg : Config) (servoNumber degrees : Nat) : List Nat :=
  [cfg.COMMAND_NODE_SERVO_SET % 256, servoNumber % 256, (degrees >>> 8) % 256, degrees &&& 0xFF]

/-- `Mrm_node::servoWrite`; `degrees` is a `uint16_t`. -/
def servoWrite (cfg : Config) (servoNumber degrees deviceNumber : Nat) (s : Mrm_node) :
    Except Fault Mrm_node :=
  if servoNumber ≥ MRM_NODE_SERVO_COUNT then
    .ok { s with errorMessage := ErrorMessage.servoNotFound }
  else
    match readCell s.servoDegrees deviceNumber servoNumber with
    | none => .error Fault.outOfBounds
    | some current =>
      if degrees ≠ current then
        let canData := servoFrame cfg servoNumber degrees ++ s.canData.drop 4
        match writeCell s.servoDegrees deviceNumber servoNumber degrees with
        | none => .error Fault.outOfBounds
        | some sd =>
          .ok { s with canData := canData, servoDegrees := sd,
                       bus := s.bus ++ [BusEvent.messageSend (canData.take 4) deviceNumber] }
      else .ok s

/-! ## Vocabulary of the statements -/

deriving instance DecidableEq for Except

/-- The frame is handed to the device `d` at position `k` of `devices`: the
loop of `messageDecode` stops at the first device that `isForMe` accepts. -/
def addressedTo (ext : External) (message : CANMessage) (s : Mrm_node) (k : Nat)
    (d : Device) : Prop :=
  s.devices[k]? = some d ∧ ext.isForMe message.id d = true ∧
    ∀ e ∈ s.devices.take k, ext.isForMe message.id e = false

/-- The common decoder lets the frame through to the opcode `switch` and
leaves the ordinal number of the device alone. -/
def passedOn (ext : External) (message : CANMessage) (s : Mrm_node) (d : Device) : Prop :=
  (ext.messageDecodeCommon message (millis s) d).2 = false ∧
    (ext.messageDecodeCommon message (millis s) d).1.number = d.number

/-- What one poll of `started` sees of board `deviceNumber`: whether
`millis() - lastReadingsMs < 100` holds; `none` when there is no such
device. -/
def pollSees (deviceNumber : Nat) (s : Mrm_node) : Option Bool :=
  s.devices[deviceNumber]?.map (fun device => decide (usub32 (millis s) device.lastReadingsMs < 100))

/-- The object at the head of the `for` loop of `started` after `r` rounds
in which no poll saw a reply, when every `delayMs(1)` advances the clock by
one millisecond: each round is a start request and a window of 50 polls. -/
def afterRounds (ext : External) (deviceNumber : Nat) (s : Mrm_node) : Nat → Mrm_node
  | 0 => s
  | r + 1 => ext.delayMs^[50] (start deviceNumber 0 (afterRounds ext deviceNumber s r))

/-- The object at poll `j` (from 0) of round `i` (from 0) of the probing
loop, when no earlier poll saw a reply. -/
def pollState (ext : External) (deviceNumber : Nat) (s : Mrm_node) (i j : Nat) : Mrm_node :=
  ext.delayMs^[j] (start deviceNumber 0 (afterRounds ext deviceNumber s i))

/-- The state of the tables that the constructor sets up and every member
function keeps: the three vectors have one length, every device carries a
number below `nextFree`, and the readings of a slot that is not registered
yet are the zeros the constructor wrote. -/
def slotsPristine (s : Mrm_node) : Prop :=
  s.readings.length = s.switches.length ∧
    (∀ d ∈ s.devices, d.number < s.nextFree) ∧
    ∀ i, s.nextFree ≤ i → i < s.readings.length →
      s.readings[i]? = some (List.replicate MRM_NODE_ANALOG_COUNT 0)

/-! ## A concrete installation, for evaluating the functions -/

/-- A configuration with the opcodes 4 to 8 and a threshold of 2000 ms. -/
def demoConfig : Config :=
  { COMMAND_NODE_SENDING_SENSORS_1_TO_3 := 4
    COMMAND_NODE_SENDING_SENSORS_4_TO_6 := 5
    COMMAND_NODE_SENDING_SENSORS_7_TO_9 := 6
    COMMAND_NODE_SWITCH_ON := 7
    COMMAND_NODE_SERVO_SET := 8
    MRM_NODE_INACTIVITY_ALLOWED_MS := 2000
    CAN_ID_NODE_IN := fun k => 368 + 2 * k
    CAN_ID_NODE_OUT := fun k => 369 + 2 * k
    caseLabelsDistinct := by decide }

/-- A delay of one millisecond during which nothing else happens. -/
def tick (s : Mrm_node) : Mrm_node := { s with ms := s.ms + 1 }

/-- Collaborators of a quiet bus: a frame is for the device whose outbound
identifier it carries, the common decoder consumes nothing, and `delayMs(1)`
only lets the clock advance. -/
def quietBus : External :=
  { isForMe := fun id d => id == d.canIdOut
    messageDecodeCommon := fun _ _ d => (d, false)
    delayMs := tick }

/-- The object after the constructor for two boards and one `add`, as
`add` leaves it. -/
def oneBoard : Mrm_node :=
  { devices := [{ number := 0, canIdIn := 368, canIdOut := 369, alive := false,
                  lastReadingsMs := 0 }]
    nextFree := 1
    readings := [[0, 0, 0, 0, 0, 0, 0, 0, 0], [0, 0, 0, 0, 0, 0, 0, 0, 0]]
    switches := [[false, false, false, false, false], [false, false, false, false, false]]
    servoDegrees := [[65535, 65535, 65535], [0, 0, 0]]
    canData := [0, 0, 0, 0, 0, 0, 0, 0]
    errorMessage := ErrorMessage.empty
    unknownCommands := []
    bus := []
    ms := 0 }

/-- The board of `oneBoard` after a frame at clock 77, looked at when the
clock shows 100. -/
def freshBoard : Mrm_node :=
  { oneBoard with
    devices := [{ number := 0, canIdIn := 368, canIdOut := 369, alive := false,
                  lastReadingsMs := 77 }]
    ms := 100 }

/-- A bus on which the board answers once: the `delayMs(1)` that brings the
clock to `t` also brings a frame that stamps every device with `t`. -/
def replyAt (t : Nat) : External :=
  { isForMe := fun id d => id == d.canIdOut
    messageDecodeCommon := fun _ _ d => (d, false)
    delayMs := fun s =>
      if s.ms + 1 = t then
        { s with ms := s.ms + 1, devices := s.devices.map (fun d => { d with lastReadingsMs := t }) }
      else { s with ms := s.ms + 1 } }

/-- The object after the constructor for two boards and two `add`. -/
def twoBoards : Mrm_node :=
  { devices := [{ number := 0, canIdIn := 368, canIdOut := 369, alive := false,
                  lastReadingsMs := 0 },
                { number := 1, canIdIn := 370, canIdOut := 371, alive := false,
                  lastReadingsMs := 0 }]
    nextFree := 2
    readings := [[0, 0, 0, 0, 0, 0, 0, 0, 0], [0, 0, 0, 0, 0, 0, 0, 0, 0]]
    switches := [[false, false, false, false, false], [false, false, false, false, false]]
    servoDegrees := [[65535, 65535, 65535], [65535, 65535, 65535]]
    canData := [0, 0, 0, 0, 0, 0, 0, 0]
    errorMessage := ErrorMessage.empty
    unknownCommands := []
    bus := []
    ms := 0 }

/-- The board of `oneBoard` marked alive by the base class, with a frame
from clock 77, looked at when the clock shows 5000. -/
def aliveBoard : Mrm_node :=
  { oneBoard with
    devices := [{ number := 0, canIdIn := 368, canIdOut := 369, alive := true,
                  lastReadingsMs := 77 }]
    ms := 5000 }

/-- The call `add` made `n` times in a row. -/
def addMany (cfg : Config) : Nat → Mrm_node → Except Fault Mrm_node
  | 0, s => .ok s
  | n + 1, s => (add cfg s).bind (addMany cfg n)

/-- The object after the constructor for eight boards and eight `add`. -/
def eightBoards : Mrm_node :=
  match addMany demoConfig 8 (Mrm_node.new 8) with
  | .ok s => s
  | .error _ => Mrm_node.new 8

/-! ## Lemmas on bytes and tables -/

theorem oneBoard_eq_add : add demoConfig (Mrm_node.new 2) = .ok oneBoard := by
  decide

theorem writeCell_eq {α : Type} {table : List (List α)} {i j : Nat} {row : List α} (v : α)
    (hrow : table[i]? = some row) (hj : j < row.length) :
    writeCell table i j v = some (table.set i (row.set j v)) := by
  simp [writeCell, hrow, hj]

theorem readCell_set_same {α : Type} (table : List (List α)) (i j : Nat) (row : List α)
    (hi : i < table.length) : readCell (table.set i row) i j = row[j]? := by
  simp [readCell, List.getElem?_set_self hi]

theorem readCell_set_other {α : Type} (table : List (List α)) (i i' j : Nat) (row : List α)
    (hi : i ≠ i') : readCell (table.set i row) i' j = readCell table i' j := by
  simp [readCell, List.getElem?_set_ne hi]

theorem lt_length_of_getElem? {α : Type} {l : List α} {i : Nat} {a : α}
    (h : l[i]? = some a) : i < l.length := by
  rcases List.getElem?_eq_some.mp h with ⟨hi, _⟩
  exact hi

theorem storeReadings_spec (message : CANMessage) (number start : Nat)
    (table : List (List Nat)) (row : List Nat) (n : Nat)
    (hrow : table[number]? = some row) (hlen : start + n ≤ row.length) :
    ∃ row', storeReadings message number start table n = some (table.set number row') ∧
      row'.length = row.length ∧
      ∀ c, row'[c]? =
        if start ≤ c ∧ c < start + n then some (unpackReading message (c - start)) else row[c]? := by
  have hnum := lt_length_of_getElem? hrow
  induction n with
  | zero =>
    refine ⟨row, ?_, rfl, ?_⟩
    · have : table.set number row = table := by
        apply List.ext_getElem?
        intro i
        by_cases hi : number = i
        · subst hi
          rw [List.getElem?_set_self hnum, hrow]
        · rw [List.getElem?_set_ne hi]
      simp [storeReadings, this]
    · intro c
      rw [if_neg (by omega)]
  | succ n ih =>
    obtain ⟨row', hst, hl, hget⟩ := ih (by omega)
    have hrow' : (table.set number row')[number]? = some row' := List.getElem?_set_self hnum
    have hj : start + n < row'.length := by omega
    refine ⟨row'.set (start + n) (unpackReading message n), ?_, by simp [hl], ?_⟩
    · simp only [storeReadings, hst]
      rw [writeCell_eq _ hrow' hj, List.set_set]
    · intro c
      rw [List.getElem?_set, hget c]
      by_cases hc : start + n = c
      · subst hc
        simp [hj]
      · have h1 : (start ≤ c ∧ c < start + (n + 1)) ↔ (start ≤ c ∧ c < start + n) := by omega
        simp [hc, h1]

theorem decodeLoop_find (cfg : Config) (ext : External) (message : CANMessage) (s : Mrm_node)
    (d : Device) (l : List Device) (k j : Nat) (hk : l[k]? = some d)
    (hd : ext.isForMe message.id d = true)
    (hbefore : ∀ e ∈ l.take k, ext.isForMe message.id e = false) :
    decodeLoop cfg ext message s l j = decodeFor cfg ext message (j + k) d s := by
  induction l generalizing k j with
  | nil => simp at hk
  | cons e rest ih =>
    cases k with
    | zero =>
      simp at hk
      subst hk
      simp [decodeLoop, hd]
    | succ k =>
      have he : ext.isForMe message.id e = false := hbefore e (by simp)
      have hrest : ∀ x ∈ rest.take k, ext.isForMe message.id x = false := by
        intro x hx
        exact hbefore x (by simp [hx])
      simp only [decodeLoop, he]
      rw [ih k (j + 1) (by simpa using hk) hrest]
      simp [Nat.add_assoc, Nat.add_comm 1 k]

theorem messageDecode_addressed (cfg : Config) (ext : External) (message : CANMessage)
    (s : Mrm_node) (k : Nat) (d : Device) (haddr : addressedTo ext message s k d) :
    messageDecode cfg ext message s = decodeFor cfg ext message k d s := by
  obtain ⟨hk, hd, hbefore⟩ := haddr
  unfold messageDecode
  rw [decodeLoop_find cfg ext message s d s.devices k 0 hk hd hbefore]
  simp

theorem storeGroup_spec (message : CANMessage) (number start : Nat) (s : Mrm_node)
    (row : List Nat) (hrow : s.readings[number]? = some row) (hlen : start + 3 ≤ row.length) :
    ∃ row', storeGroup message number start s =
        .ok (true, { s with readings := s.readings.set number row' }) ∧
      row'.length = row.length ∧
      ∀ c, row'[c]? =
        if start ≤ c ∧ c < start + 3 then some (unpackReading message (c - start)) else row[c]? := by
  obtain ⟨row', hst, hl, hget⟩ := storeReadings_spec message number start s.readings row 3 hrow hlen
  exact ⟨row', by simp [storeGroup, hst], hl, hget⟩

/-- A frame with the opcode of the sensor group that starts at channel
`start` runs into the loop that stores the three readings; group 3 stamps the
device with the clock first. -/
theorem decodeFor_group (cfg : Config) (ext : External) (message : CANMessage) (s : Mrm_node)
    (k : Nat) (d d' : Device) (start : Nat)
    (hpass : ext.messageDecodeCommon message (millis s) d = (d', false))
    (hop : (message.byte 0 = cfg.COMMAND_NODE_SENDING_SENSORS_1_TO_3 ∧ start = 0) ∨
      (message.byte 0 = cfg.COMMAND_NODE_SENDING_SENSORS_4_TO_6 ∧ start = 3) ∨
      (message.byte 0 = cfg.COMMAND_NODE_SENDING_SENSORS_7_TO_9 ∧ start = 6)) :
    decodeFor cfg ext message k d s =
      storeGroup message d'.number start
        { s with devices :=
            (s.devices.set k (if start = 6 then { d' with lastReadingsMs := millis s } else d')) } := by
  have hd := cfg.caseLabelsDistinct
  simp only [List.nodup_cons, List.mem_cons, List.mem_singleton, not_or] at hd
  obtain ⟨⟨h12, h13, _⟩, ⟨h23, _⟩, _⟩ := hd
  rcases hop with ⟨h, rfl⟩ | ⟨h, rfl⟩ | ⟨h, rfl⟩
  · simp [decodeFor, hpass, h]
  · simp [decodeFor, hpass, h, Ne.symm h12]
  · simp [decodeFor, hpass, h, Ne.symm h13, Ne.symm h23]

/-- The scenario of the specification evaluated: the frame
`[op, 0x01, 0x02, 0x00, 0x05, 0x00, 0x09]` of group 1 gives the readings 258,
5 and 9 in channels 0 to 2. -/
theorem sensor_group_1_scenario :
    (messageDecode demoConfig quietBus ⟨369, [4, 1, 2, 0, 5, 0, 9, 0]⟩ oneBoard).map
        (fun r => r.2.readings) =
      .ok [[258, 5, 9, 0, 0, 0, 0, 0, 0], [0, 0, 0, 0, 0, 0, 0, 0, 0]] := by
  decide

/-! ## `started`: the fresh branch -/

theorem usub32_of_le (a b : Nat) (hab : b ≤ a) (ha : a < 4294967296) : usub32 a b = a - b := by
  unfold usub32
  omega

theorem started_fresh (cfg : Config) (ext : External) (fuel deviceNumber : Nat) (s : Mrm_node)
    (d : Device) (hd : s.devices[deviceNumber]? = some d) (hnz : d.lastReadingsMs ≠ 0)
    (hin : usub32 (millis s) d.lastReadingsMs ≤ cfg.MRM_NODE_INACTIVITY_ALLOWED_MS) :
    started cfg ext fuel deviceNumber s = .ok (true, s) := by
  have h : ¬ (usub32 (millis s) d.lastReadingsMs > cfg.MRM_NODE_INACTIVITY_ALLOWED_MS) := by omega
  simp [started, hd, hnz, h]

theorem started_stale (cfg : Config) (ext : External) (fuel deviceNumber : Nat) (s : Mrm_node)
    (d : Device) (hd : s.devices[deviceNumber]? = some d)
    (hstale : usub32 (millis s) d.lastReadingsMs > cfg.MRM_NODE_INACTIVITY_ALLOWED_MS
      ∨ d.lastReadingsMs = 0) :
    started cfg ext fuel deviceNumber s = probe ext fuel deviceNumber 8 s := by
  simp [started, hd, hstale]

/-- C6: for a board whose `lastReadingsMs` is not 0 and at most
`MRM_NODE_INACTIVITY_ALLOWED_MS` behind the clock, `started` returns true
and leaves the object as it was: no start request, no other bus traffic, no
change of any board state. -/
theorem C6_fresh_check_is_noop (cfg : Config) (ext : External) (fuel deviceNumber : Nat)
    (s : Mrm_node) (d : Device) (hd : s.devices[deviceNumber]? = some d)
    (hnz : d.lastReadingsMs ≠ 0)
    (hin : usub32 (millis s) d.lastReadingsMs ≤ cfg.MRM_NODE_INACTIVITY_ALLOWED_MS) :
    started cfg ext fuel deviceNumber s = .ok (true, s) :=
  started_fresh cfg ext fuel deviceNumber s d hd hnz hin

theorem C6_fresh_check_is_noop_witness :
    freshBoard.devices[0]? =
        some { number := 0, canIdIn := 368, canIdOut := 369, alive := false, lastReadingsMs := 77 } ∧
      (77 : Nat) ≠ 0 ∧ usub32 (millis freshBoard) 77 ≤ demoConfig.MRM_NODE_INACTIVITY_ALLOWED_MS ∧
      started demoConfig quietBus 0 0 freshBoard = .ok (true, freshBoard) :=
  ⟨by decide, by decide, by decide,
    C6_fresh_check_is_noop demoConfig quietBus 0 0 freshBoard
      { number := 0, canIdIn := 368, canIdOut := 369, alive := false, lastReadingsMs := 77 }
      (by decide) (by decide) (by decide)⟩

/-! ## `reading` -/

theorem reading_slot_rejected (cfg : Config) (ext : External)
    (fuel receiverNumberInSensor deviceNumber : Nat) (s : Mrm_node)
    (h : s.nextFree ≤ deviceNumber) :
    reading cfg ext fuel receiverNumberInSensor deviceNumber s =
      .ok (0, { s with errorMessage := ErrorMessage.doesntExist deviceNumber }) := by
  simp [reading, h]

theorem reading_channel_rejected (cfg : Config) (ext : External)
    (fuel receiverNumberInSensor deviceNumber : Nat) (s : Mrm_node)
    (h : MRM_NODE_ANALOG_COUNT < receiverNumberInSensor) :
    reading cfg ext fuel receiverNumberInSensor deviceNumber s =
      .ok (0, { s with errorMessage := ErrorMessage.doesntExist deviceNumber }) := by
  simp [reading, h]

theorem reading_accepted (cfg : Config) (ext : External)
    (fuel receiverNumberInSensor deviceNumber : Nat) (s : Mrm_node)
    (hslot : deviceNumber < s.nextFree) (hch : receiverNumberInSensor ≤ MRM_NODE_ANALOG_COUNT) :
    reading cfg ext fuel receiverNumberInSensor deviceNumber s =
      match started cfg ext fuel deviceNumber s with
      | .error e => .error e
      | .ok (true, s1) =>
        match readCell s1.readings deviceNumber receiverNumberInSensor with
        | none => .error Fault.outOfBounds
        | some v => .ok (v, s1)
      | .ok (false, s1) => .ok (0, s1) := by
  have h : ¬ (deviceNumber ≥ s.nextFree ∨ receiverNumberInSensor > MRM_NODE_ANALOG_COUNT) := by
    omega
  simp only [reading, if_neg h]

/-- The check of `reading` lets channel 9 through: for a registered board
whose data is fresh and whose row has the nine channels 0 to 8, the call
reads `readings[deviceNumber][9]`, outside the row. -/
theorem reading_channel_nine_outside (cfg : Config) (ext : External) (fuel deviceNumber : Nat)
    (s : Mrm_node) (d : Device) (row : List Nat) (hslot : deviceNumber < s.nextFree)
    (hd : s.devices[deviceNumber]? = some d) (hnz : d.lastReadingsMs ≠ 0)
    (hin : usub32 (millis s) d.lastReadingsMs ≤ cfg.MRM_NODE_INACTIVITY_ALLOWED_MS)
    (hrow : s.readings[deviceNumber]? = some row) (hlen : row.length = MRM_NODE_ANALOG_COUNT) :
    reading cfg ext fuel MRM_NODE_ANALOG_COUNT deviceNumber s = .error Fault.outOfBounds := by
  rw [reading_accepted cfg ext fuel _ deviceNumber s hslot (Nat.le_refl _),
    started_fresh cfg ext fuel deviceNumber s d hd hnz hin]
  have : row[MRM_NODE_ANALOG_COUNT]? = none := by
    rw [List.getElem?_eq_none_iff, hlen]
  simp [readCell, hrow, this]

/-- C2, the failing input: one registered board with fresh data, channel 9,
slot 0.  `reading` reports no error and indexes `readings[0][9]`. -/
theorem C2_reading_channel_nine :
    reading demoConfig quietBus 51 9 0 freshBoard = .error Fault.outOfBounds ∧
      switchRead MRM_NODE_SWITCHES_COUNT 0 freshBoard =
        .ok (false, { freshBoard with errorMessage := ErrorMessage.doesntExist 0 }) := by
  decide

/-! ## Freshness after a frame of sensor group 3 -/

set_option maxRecDepth 1000000

theorem storeGroup_devices (message : CANMessage) (number start : Nat) (s s1 : Mrm_node)
    (b : Bool) (h : storeGroup message number start s = .ok (b, s1)) :
    s1.devices = s.devices := by
  unfold storeGroup at h
  split at h
  · simp at h
  · simp only [Except.ok.injEq, Prod.mk.injEq] at h
    rw [← h.2]

/-- After a frame of sensor group 3 has been decoded, the device carries the
clock value of the decode as `lastReadingsMs`. -/
theorem group3_stamps (cfg : Config) (ext : External) (message : CANMessage) (s s1 : Mrm_node)
    (k : Nat) (d : Device) (b : Bool) (haddr : addressedTo ext message s k d)
    (hpass : (ext.messageDecodeCommon message (millis s) d).2 = false)
    (hop : message.byte 0 = cfg.COMMAND_NODE_SENDING_SENSORS_7_TO_9)
    (hdec : messageDecode cfg ext message s = .ok (b, s1)) :
    ∃ d1, s1.devices[k]? = some d1 ∧ d1.lastReadingsMs = millis s := by
  rw [messageDecode_addressed cfg ext message s k d haddr,
    decodeFor_group cfg ext message s k d _ 6 (Prod.ext rfl hpass) (Or.inr (Or.inr ⟨hop, rfl⟩))]
    at hdec
  have hdev := storeGroup_devices _ _ _ _ _ _ hdec
  have hk := lt_length_of_getElem? haddr.1
  rw [hdev]
  simp only [if_pos, List.getElem?_set_self hk]
  exact ⟨_, rfl, rfl⟩

/-- C3, as amended: a board whose `lastReadingsMs` was set by decoding a
frame of sensor group 3 at clock value `T > 0` is found fresh by `started`
at every clock value `T'` with `T ≤ T' ≤ T + MRM_NODE_INACTIVITY_ALLOWED_MS`
(true is returned and nothing is sent or changed), and at every
`T' > T + MRM_NODE_INACTIVITY_ALLOWED_MS` the check runs the probing loop. -/
theorem C3_fresh_within_threshold (cfg : Config) (ext : External) (message : CANMessage)
    (s s1 s2 : Mrm_node) (k : Nat) (d : Device) (b : Bool) (fuel T T' : Nat)
    (haddr : addressedTo ext message s k d)
    (hpass : (ext.messageDecodeCommon message (millis s) d).2 = false)
    (hop : message.byte 0 = cfg.COMMAND_NODE_SENDING_SENSORS_7_TO_9)
    (hT : millis s = T)
    (hdec : messageDecode cfg ext message s = .ok (b, s1))
    (hkeep : s2.devices[k]? = s1.devices[k]?)
    (hT' : s2.ms = T') (hrange : T' < 4294967296)
    (hpos : 0 < T) (hle : T ≤ T') :
    (T' ≤ T + cfg.MRM_NODE_INACTIVITY_ALLOWED_MS →
      started cfg ext fuel k s2 = .ok (true, s2)) ∧
    (T + cfg.MRM_NODE_INACTIVITY_ALLOWED_MS < T' →
      started cfg ext fuel k s2 = probe ext fuel k 8 s2) := by
  obtain ⟨d1, hd1, hlast⟩ := group3_stamps cfg ext message s s1 k d b haddr hpass hop hdec
  rw [← hkeep] at hd1
  rw [hT] at hlast
  have hms : millis s2 = T' := by
    unfold millis
    omega
  have hsub : usub32 (millis s2) d1.lastReadingsMs = T' - T := by
    rw [hms, hlast]
    exact usub32_of_le T' T hle hrange
  constructor
  · intro h
    exact started_fresh cfg ext fuel k s2 d1 hd1 (by omega) (by omega)
  · intro h
    exact started_stale cfg ext fuel k s2 d1 hd1 (Or.inl (by omega))

theorem C3_fresh_within_threshold_witness :
    addressedTo quietBus ⟨369, [6, 1, 2, 0, 5, 0, 9, 0]⟩ { oneBoard with ms := 77 } 0
        { number := 0, canIdIn := 368, canIdOut := 369, alive := false, lastReadingsMs := 0 } ∧
      messageDecode demoConfig quietBus ⟨369, [6, 1, 2, 0, 5, 0, 9, 0]⟩ { oneBoard with ms := 77 } =
        .ok (true, { freshBoard with
                     readings := [[0, 0, 0, 0, 0, 0, 258, 5, 9], [0, 0, 0, 0, 0, 0, 0, 0, 0]],
                     ms := 77 }) ∧
      (0 < 77 ∧ 77 ≤ 100) ∧
      ((100 ≤ 77 + demoConfig.MRM_NODE_INACTIVITY_ALLOWED_MS →
        started demoConfig quietBus 51 0 freshBoard = .ok (true, freshBoard)) ∧
      (77 + demoConfig.MRM_NODE_INACTIVITY_ALLOWED_MS < 100 →
        started demoConfig quietBus 51 0 freshBoard = probe quietBus 51 0 8 freshBoard)) :=
  ⟨⟨by decide, by decide, by decide⟩, by decide, by decide,
    C3_fresh_within_threshold demoConfig quietBus ⟨369, [6, 1, 2, 0, 5, 0, 9, 0]⟩
      { oneBoard with ms := 77 }
      { freshBoard with
        readings := [[0, 0, 0, 0, 0, 0, 258, 5, 9], [0, 0, 0, 0, 0, 0, 0, 0, 0]], ms := 77 }
      freshBoard 0
      { number := 0, canIdIn := 368, canIdOut := 369, alive := false, lastReadingsMs := 0 }
      true 51 77 100 ⟨by decide, by decide, by decide⟩ (by decide) (by decide) (by decide)
      (by decide) (by decide) (by decide) (by decide) (by decide) (by decide)⟩

/-- C3 as stated fails at `T = 0`: a frame of sensor group 3 decoded while
the clock shows 0 leaves `lastReadingsMs = 0`, which `started` reads as
"never updated".  A check at `T' = 150`, inside the threshold of 2000 ms,
does not return true unchanged: it sends eight start requests and returns
false. -/
theorem C3_clock_zero_counterexample :
    ∃ s1, millis oneBoard = 0 ∧
      messageDecode demoConfig quietBus ⟨369, [6, 1, 2, 0, 5, 0, 9, 0]⟩ oneBoard = .ok (true, s1) ∧
      (0 ≤ 150 ∧ 150 ≤ 0 + demoConfig.MRM_NODE_INACTIVITY_ALLOWED_MS) ∧
      started demoConfig quietBus 51 0 { s1 with ms := 150 } ≠ .ok (true, { s1 with ms := 150 }) ∧
      (started demoConfig quietBus 51 0 { s1 with ms := 150 }).map (fun r => (r.1, r.2.bus)) =
        .ok (false, List.replicate 8 (BusEvent.start 0 0)) :=
  ⟨_, by decide, rfl, by decide, by decide, by decide⟩

/-! ## `started`: the probing loop -/

theorem usub32_self (a : Nat) : usub32 (a % 4294967296) (a % 4294967296) = 0 := by
  unfold usub32
  omega

theorem usub32_step (a b e : Nat) (h : usub32 a b = e) (he : e < 50) :
    usub32 ((a + 1) % 4294967296) b = e + 1 := by
  unfold usub32 at *
  omega

theorem usub32_add (a l x : Nat) (hx : usub32 (a % 4294967296) l + x < 4294967296) :
    usub32 ((a + x) % 4294967296) l = usub32 (a % 4294967296) l + x := by
  unfold usub32 at *
  omega

theorem pollSees_false {deviceNumber : Nat} {s : Mrm_node}
    (h : pollSees deviceNumber s = some false) :
    ∃ d, s.devices[deviceNumber]? = some d ∧ ¬ usub32 (millis s) d.lastReadingsMs < 100 := by
  unfold pollSees at h
  cases hd : s.devices[deviceNumber]? with
  | none => simp [hd] at h
  | some d =>
    refine ⟨d, rfl, ?_⟩
    simpa [hd] using h

theorem pollSees_true {deviceNumber : Nat} {s : Mrm_node}
    (h : pollSees deviceNumber s = some true) :
    ∃ d, s.devices[deviceNumber]? = some d ∧ usub32 (millis s) d.lastReadingsMs < 100 := by
  unfold pollSees at h
  cases hd : s.devices[deviceNumber]? with
  | none => simp [hd] at h
  | some d =>
    refine ⟨d, rfl, ?_⟩
    simpa [hd] using h

/-- Polls that see no reply are passed over one by one: `n` such polls use
`n` units of fuel and `n` milliseconds of the window. -/
theorem pollWindow_skip (ext : External) (deviceNumber startMs : Nat)
    (hclock : ∀ t, millis (ext.delayMs t) = (millis t + 1) % 4294967296) :
    ∀ (n fuel : Nat) (u : Mrm_node) (e : Nat), usub32 (millis u) startMs = e → e + n ≤ 50 →
      (∀ j, j < n → pollSees deviceNumber (ext.delayMs^[j] u) = some false) →
      pollWindow ext deviceNumber startMs (fuel + n) u =
          pollWindow ext deviceNumber startMs fuel (ext.delayMs^[n] u) ∧
        usub32 (millis (ext.delayMs^[n] u)) startMs = e + n := by
  intro n
  induction n with
  | zero =>
    intro fuel u e he _ _
    exact ⟨rfl, he⟩
  | succ n ih =>
    intro fuel u e he hen hsee
    obtain ⟨d, hd, hnot⟩ := pollSees_false (hsee 0 (Nat.succ_pos n))
    rw [Function.iterate_zero, id_eq] at hd hnot
    have hlt : usub32 (millis u) startMs < 50 := by omega
    have hstep : usub32 (millis (ext.delayMs u)) startMs = e + 1 := by
      rw [hclock]
      exact usub32_step _ _ _ he (by omega)
    have hrest : ∀ j, j < n → pollSees deviceNumber (ext.delayMs^[j] (ext.delayMs u)) = some false := by
      intro j hj
      exact hsee (j + 1) (by omega)
    obtain ⟨h1, h2⟩ := ih fuel (ext.delayMs u) (e + 1) hstep (by omega) hrest
    constructor
    · rw [Function.iterate_succ_apply, ← h1]
      show pollWindow ext deviceNumber startMs ((fuel + n) + 1) u = _
      simp only [pollWindow, hlt, hd, hnot, if_true, if_false]
    · rw [Function.iterate_succ_apply, h2]
      omega

/-- A window whose poll `j < 50` is the first to see a reply ends there with
true. -/
theorem pollWindow_sees (ext : External) (deviceNumber fuel j : Nat) (t : Mrm_node)
    (hclock : ∀ u, millis (ext.delayMs u) = (millis u + 1) % 4294967296)
    (hj : j < 50) (hfuel : j < fuel)
    (hbefore : ∀ i, i < j → pollSees deviceNumber (ext.delayMs^[i] t) = some false)
    (hnow : pollSees deviceNumber (ext.delayMs^[j] t) = some true) :
    pollWindow ext deviceNumber (millis t) fuel t = .ok (true, ext.delayMs^[j] t) := by
  obtain ⟨h1, h2⟩ := pollWindow_skip ext deviceNumber (millis t) hclock j (fuel - j) t 0
    (usub32_self t.ms) (by omega) hbefore
  obtain ⟨d, hd, hyes⟩ := pollSees_true hnow
  have hfj : fuel = fuel - j + j := by omega
  rw [hfj, h1]
  obtain ⟨f, hf⟩ : ∃ f, fuel - j = f + 1 := ⟨fuel - j - 1, by omega⟩
  have hlt : usub32 (millis (ext.delayMs^[j] t)) (millis t) < 50 := by omega
  rw [hf]
  simp only [pollWindow, hlt, hd, hyes, if_true]

/-- A window in which none of the 50 polls sees a reply ends with false
after 50 milliseconds. -/
theorem pollWindow_runs_out (ext : External) (deviceNumber fuel : Nat) (t : Mrm_node)
    (hclock : ∀ u, millis (ext.delayMs u) = (millis u + 1) % 4294967296)
    (hfuel : 50 < fuel)
    (hnone : ∀ i, i < 50 → pollSees deviceNumber (ext.delayMs^[i] t) = some false) :
    pollWindow ext deviceNumber (millis t) fuel t = .ok (false, ext.delayMs^[50] t) := by
  obtain ⟨h1, h2⟩ := pollWindow_skip ext deviceNumber (millis t) hclock 50 (fuel - 50) t 0
    (usub32_self t.ms) (by omega) hnone
  have hfj : fuel = fuel - 50 + 50 := by omega
  rw [hfj, h1]
  obtain ⟨f, hf⟩ : ∃ f, fuel - 50 = f + 1 := ⟨fuel - 50 - 1, by omega⟩
  have hlt : ¬ usub32 (millis (ext.delayMs^[50] t)) (millis t) < 50 := by omega
  rw [hf]
  simp only [pollWindow, hlt, if_false]

theorem millis_start (deviceNumber mode : Nat) (s : Mrm_node) :
    millis (start deviceNumber mode s) = millis s := rfl

/-- Rounds without a reply are passed over one by one. -/
theorem probe_skip (ext : External) (fuel deviceNumber : Nat) (s : Mrm_node)
    (hclock : ∀ u, millis (ext.delayMs u) = (millis u + 1) % 4294967296)
    (hfuel : 50 < fuel) :
    ∀ (r tries : Nat),
      (∀ i, i < r → ∀ j, j < 50 →
        pollSees deviceNumber (pollState ext deviceNumber s i j) = some false) →
      probe ext fuel deviceNumber (tries + r) s =
        probe ext fuel deviceNumber tries (afterRounds ext deviceNumber s r) := by
  intro r
  induction r with
  | zero =>
    intro tries _
    rfl
  | succ r ih =>
    intro tries hnone
    have hprev : ∀ i, i < r → ∀ j, j < 50 →
        pollSees deviceNumber (pollState ext deviceNumber s i j) = some false := by
      intro i hi j hj
      exact hnone i (by omega) j hj
    have hround := pollWindow_runs_out ext deviceNumber fuel
      (start deviceNumber 0 (afterRounds ext deviceNumber s r)) hclock hfuel
      (fun j hj => hnone r (Nat.lt_succ_self r) j hj)
    have hre : tries + (r + 1) = (tries + 1) + r := by omega
    rw [hre, ih (tries + 1) hprev]
    simp only [probe, hround]
    rfl

theorem iterate_bus (ext : External) (hbus : ∀ u, (ext.delayMs u).bus = u.bus) (n : Nat)
    (t : Mrm_node) : (ext.delayMs^[n] t).bus = t.bus := by
  induction n generalizing t with
  | zero => rfl
  | succ n ih => rw [Function.iterate_succ_apply, ih, hbus]

theorem afterRounds_bus (ext : External) (deviceNumber : Nat) (s : Mrm_node)
    (hbus : ∀ u, (ext.delayMs u).bus = u.bus) (r : Nat) :
    (afterRounds ext deviceNumber s r).bus =
      s.bus ++ List.replicate r (BusEvent.start deviceNumber 0) := by
  induction r with
  | zero => simp [afterRounds]
  | succ r ih =>
    rw [afterRounds, iterate_bus ext hbus, List.replicate_succ', ← List.append_assoc, ← ih]
    rfl

theorem pollState_bus (ext : External) (deviceNumber : Nat) (s : Mrm_node)
    (hbus : ∀ u, (ext.delayMs u).bus = u.bus) (i j : Nat) :
    (pollState ext deviceNumber s i j).bus =
      s.bus ++ List.replicate (i + 1) (BusEvent.start deviceNumber 0) := by
  rw [pollState, iterate_bus ext hbus, List.replicate_succ', ← List.append_assoc,
    ← afterRounds_bus ext deviceNumber s hbus i]
  rfl

/-- When no poll of the eight rounds sees a reply, `started` sends eight
start requests, writes the "dead" message and returns false. -/
theorem started_unanswered (cfg : Config) (ext : External) (fuel deviceNumber : Nat)
    (s : Mrm_node) (d : Device) (hfuel : 50 < fuel)
    (hd : s.devices[deviceNumber]? = some d)
    (hstale : usub32 (millis s) d.lastReadingsMs > cfg.MRM_NODE_INACTIVITY_ALLOWED_MS
      ∨ d.lastReadingsMs = 0)
    (hclock : ∀ u, millis (ext.delayMs u) = (millis u + 1) % 4294967296)
    (hbus : ∀ u, (ext.delayMs u).bus = u.bus)
    (hnone : ∀ i, i < 8 → ∀ j, j < 50 →
      pollSees deviceNumber (pollState ext deviceNumber s i j) = some false) :
    started cfg ext fuel deviceNumber s =
        .ok (false, { afterRounds ext deviceNumber s 8 with
                      errorMessage := ErrorMessage.dead deviceNumber }) ∧
      (afterRounds ext deviceNumber s 8).bus =
        s.bus ++ List.replicate 8 (BusEvent.start deviceNumber 0) := by
  refine ⟨?_, afterRounds_bus ext deviceNumber s hbus 8⟩
  rw [started_stale cfg ext fuel deviceNumber s d hd hstale]
  have h := probe_skip ext fuel deviceNumber s hclock hfuel 8 0 hnone
  rw [Nat.zero_add] at h
  rw [h]
  rfl

/-- C5, as amended: let the board be stale in the sense of `started`, let
every `delayMs(1)` advance the clock by one millisecond and send nothing, and
let poll `j` of round `k` (1 ≤ k ≤ 8, `j` one of the 50 polls of the round)
be the first poll that sees `millis() - lastReadingsMs < 100`.  Then
`started` returns true at that poll, and exactly `k` start requests have
gone to the bus. -/
theorem C5_reply_in_round_k (cfg : Config) (ext : External) (fuel deviceNumber : Nat)
    (s : Mrm_node) (d : Device) (k j : Nat)
    (hk1 : 1 ≤ k) (hk8 : k ≤ 8) (hj : j < 50) (hfuel : 50 < fuel)
    (hd : s.devices[deviceNumber]? = some d)
    (hstale : usub32 (millis s) d.lastReadingsMs > cfg.MRM_NODE_INACTIVITY_ALLOWED_MS
      ∨ d.lastReadingsMs = 0)
    (hclock : ∀ u, millis (ext.delayMs u) = (millis u + 1) % 4294967296)
    (hbus : ∀ u, (ext.delayMs u).bus = u.bus)
    (hbefore : ∀ i, i < k → ∀ i', i' < 50 → (i + 1 < k ∨ i' < j) →
      pollSees deviceNumber (pollState ext deviceNumber s i i') = some false)
    (hnow : pollSees deviceNumber (pollState ext deviceNumber s (k - 1) j) = some true) :
    started cfg ext fuel deviceNumber s = .ok (true, pollState ext deviceNumber s (k - 1) j) ∧
      (pollState ext deviceNumber s (k - 1) j).bus =
        s.bus ++ List.replicate k (BusEvent.start deviceNumber 0) := by
  constructor
  · rw [started_stale cfg ext fuel deviceNumber s d hd hstale]
    have hsplit : 8 = (8 - k + 1) + (k - 1) := by omega
    have hskip := probe_skip ext fuel deviceNumber s hclock hfuel (k - 1) (8 - k + 1)
      (fun i hi i' hi' => hbefore i (by omega) i' hi' (Or.inl (by omega)))
    rw [← hsplit] at hskip
    rw [hskip]
    have hwin := pollWindow_sees ext deviceNumber fuel j
      (start deviceNumber 0 (afterRounds ext deviceNumber s (k - 1))) hclock hj (by omega)
      (fun i' hi' => hbefore (k - 1) (by omega) i' (by omega) (Or.inr hi')) hnow
    simp only [probe, hwin]
    rfl
  · have h := pollState_bus ext deviceNumber s hbus (k - 1) j
    have hk : k - 1 + 1 = k := by omega
    rw [hk] at h
    exact h

theorem replyAt_clock (t : Nat) (u : Mrm_node) :
    millis ((replyAt t).delayMs u) = (millis u + 1) % 4294967296 := by
  unfold replyAt millis
  dsimp only
  split <;> (dsimp only; omega)

theorem replyAt_bus (t : Nat) (u : Mrm_node) : ((replyAt t).delayMs u).bus = u.bus := by
  unfold replyAt
  dsimp only
  split <;> rfl

/-- The scenario "the board responds on the 3rd probe attempt": the clock
shows 1000 at the call and the reply comes at 1110, which poll 10 of round 3
sees; three start requests are sent, five rounds stay unused. -/
theorem C5_reply_in_round_k_witness :
    (1 ≤ 3 ∧ 3 ≤ 8 ∧ 10 < 50 ∧ 50 < 51) ∧
      (usub32 (millis { oneBoard with ms := 1000 }) 0 > demoConfig.MRM_NODE_INACTIVITY_ALLOWED_MS
        ∨ (0 : Nat) = 0) ∧
      (∀ i, i < 3 → ∀ i', i' < 50 → (i + 1 < 3 ∨ i' < 10) →
        pollSees 0 (pollState (replyAt 1110) 0 { oneBoard with ms := 1000 } i i') = some false) ∧
      pollSees 0 (pollState (replyAt 1110) 0 { oneBoard with ms := 1000 } (3 - 1) 10) = some true ∧
      started demoConfig (replyAt 1110) 51 0 { oneBoard with ms := 1000 } =
        .ok (true, pollState (replyAt 1110) 0 { oneBoard with ms := 1000 } (3 - 1) 10) ∧
      (pollState (replyAt 1110) 0 { oneBoard with ms := 1000 } (3 - 1) 10).bus =
        oneBoard.bus ++ List.replicate 3 (BusEvent.start 0 0) :=
  ⟨by decide, by decide, by decide, by decide,
    C5_reply_in_round_k demoConfig (replyAt 1110) 51 0 { oneBoard with ms := 1000 }
      { number := 0, canIdIn := 368, canIdOut := 369, alive := false, lastReadingsMs := 0 }
      3 10 (by decide) (by decide) (by decide) (by decide) (by decide) (by decide)
      (replyAt_clock 1110) (replyAt_bus 1110)
      (by decide) (by decide)⟩

/-- A reply that arrives during the last `delayMs(1)` of a window is not
polled in that window: with the clock at 1000 at the call and the reply at
1150, the end of round 3, a fourth start request is sent before `started`
returns true; with the reply at 1400, the end of round 8, `started` returns
false. -/
theorem reply_in_last_delay_of_window :
    (started demoConfig (replyAt 1150) 51 0 { oneBoard with ms := 1000 }).map
        (fun r => (r.1, r.2.bus, r.2.ms)) =
      .ok (true, List.replicate 4 (BusEvent.start 0 0), 1150) ∧
    (started demoConfig (replyAt 1400) 51 0 { oneBoard with ms := 1000 }).map
        (fun r => (r.1, r.2.bus, r.2.devices.map Device.lastReadingsMs, r.2.ms)) =
      .ok (false, List.replicate 8 (BusEvent.start 0 0), [1400], 1400) := by
  decide

/-- The scenario "the board never responds", asked while the clock shows
1000: eight start requests, 400 ms, false. -/
theorem never_responds_scenario :
    (started demoConfig quietBus 51 0 { oneBoard with ms := 1000 }).map
        (fun r => (r.1, r.2.bus, r.2.errorMessage, r.2.ms)) =
      .ok (false, List.replicate 8 (BusEvent.start 0 0), ErrorMessage.dead 0, 1400) := by
  decide

/-- C4, the failing input: a board that has never sent a frame
(`lastReadingsMs = 0`), asked while the clock shows 50 and with nothing
arriving during the call.  `started` sends one start request and returns
true at the first poll, because `millis() - 0 < 100`. -/
theorem C4_never_updated_reported_started :
    oneBoard.devices[0]?.map (fun d => d.lastReadingsMs) = some 0 ∧
      started demoConfig quietBus 51 0 { oneBoard with ms := 50 } =
        .ok (true, start 0 0 { oneBoard with ms := 50 }) ∧
      (start 0 0 { oneBoard with ms := 50 }).bus = [BusEvent.start 0 0] := by
  decide

/-! ## `started` on a bus where nothing arrives -/

theorem quiet_iterate (ext : External)
    (hquiet : ∀ u, ext.delayMs u = { u with ms := u.ms + 1 }) (n : Nat) (t : Mrm_node) :
    ext.delayMs^[n] t = { t with ms := t.ms + n } := by
  induction n generalizing t with
  | zero => rfl
  | succ n ih =>
    rw [Function.iterate_succ_apply, ih, hquiet]
    simp only [Nat.add_assoc, Nat.add_comm 1 n]

theorem quiet_afterRounds (ext : External) (deviceNumber : Nat) (s : Mrm_node)
    (hquiet : ∀ u, ext.delayMs u = { u with ms := u.ms + 1 }) (r : Nat) :
    (afterRounds ext deviceNumber s r).devices = s.devices ∧
      (afterRounds ext deviceNumber s r).ms = s.ms + 50 * r := by
  induction r with
  | zero => exact ⟨rfl, rfl⟩
  | succ r ih =>
    rw [afterRounds, quiet_iterate ext hquiet]
    refine ⟨ih.1, ?_⟩
    show (afterRounds ext deviceNumber s r).ms + 50 = _
    rw [ih.2]
    omega

theorem quiet_pollState (ext : External) (deviceNumber : Nat) (s : Mrm_node)
    (hquiet : ∀ u, ext.delayMs u = { u with ms := u.ms + 1 }) (i j : Nat) :
    (pollState ext deviceNumber s i j).devices = s.devices ∧
      (pollState ext deviceNumber s i j).ms = s.ms + 50 * i + j := by
  obtain ⟨h1, h2⟩ := quiet_afterRounds ext deviceNumber s hquiet i
  rw [pollState, quiet_iterate ext hquiet]
  refine ⟨h1, ?_⟩
  show (afterRounds ext deviceNumber s i).ms + j = _
  rw [h2]

/-- When nothing arrives while `started` runs and the last frame of a stale
board is at least 100 ms old (for a board never heard of: the clock shows at
least 100), `started` sends eight start requests, each followed by a window
of 50 polls, and returns false. -/
theorem started_quiet_unanswered (cfg : Config) (ext : External) (fuel deviceNumber : Nat)
    (s : Mrm_node) (d : Device) (hfuel : 50 < fuel)
    (hd : s.devices[deviceNumber]? = some d)
    (hstale : usub32 (millis s) d.lastReadingsMs > cfg.MRM_NODE_INACTIVITY_ALLOWED_MS
      ∨ d.lastReadingsMs = 0)
    (hquiet : ∀ u, ext.delayMs u = { u with ms := u.ms + 1 })
    (hold : 100 ≤ usub32 (millis s) d.lastReadingsMs)
    (hwrap : usub32 (millis s) d.lastReadingsMs + 400 ≤ 4294967296) :
    started cfg ext fuel deviceNumber s =
        .ok (false, { afterRounds ext deviceNumber s 8 with
                      errorMessage := ErrorMessage.dead deviceNumber }) ∧
      (afterRounds ext deviceNumber s 8).bus =
        s.bus ++ List.replicate 8 (BusEvent.start deviceNumber 0) ∧
      (afterRounds ext deviceNumber s 8).ms = s.ms + 400 := by
  have hclock : ∀ u, millis (ext.delayMs u) = (millis u + 1) % 4294967296 := by
    intro u
    rw [hquiet]
    unfold millis
    dsimp only
    omega
  have hbus : ∀ u, (ext.delayMs u).bus = u.bus := by
    intro u
    rw [hquiet]
  have hnone : ∀ i, i < 8 → ∀ j, j < 50 →
      pollSees deviceNumber (pollState ext deviceNumber s i j) = some false := by
    intro i hi j hj
    obtain ⟨h1, h2⟩ := quiet_pollState ext deviceNumber s hquiet i j
    unfold pollSees
    rw [h1, hd]
    simp only [Option.map_some', Option.some.injEq, decide_eq_false_iff_not]
    have hadd := usub32_add s.ms d.lastReadingsMs (50 * i + j) (by unfold millis at hwrap; omega)
    unfold millis at hold ⊢
    rw [h2, Nat.add_assoc, hadd]
    omega
  obtain ⟨h1, h2⟩ :=
    started_unanswered cfg ext fuel deviceNumber s d hfuel hd hstale hclock hbus hnone
  exact ⟨h1, h2, (quiet_afterRounds ext deviceNumber s hquiet 8).2⟩

/-! ## `servoWrite` -/

theorem readCell_some {α : Type} {table : List (List α)} {i j : Nat} {v : α}
    (h : readCell table i j = some v) :
    ∃ row, table[i]? = some row ∧ row[j]? = some v := by
  unfold readCell at h
  cases hrow : table[i]? with
  | none => simp [hrow] at h
  | some row => exact ⟨row, rfl, by simpa [hrow] using h⟩

theorem servoFrame_bytes (cfg : Config) (servoNumber degrees : Nat)
    (hop : cfg.COMMAND_NODE_SERVO_SET < 256) (hsn : servoNumber < MRM_NODE_SERVO_COUNT)
    (hdeg : degrees < 65536) :
    servoFrame cfg servoNumber degrees =
      [cfg.COMMAND_NODE_SERVO_SET, servoNumber, degrees >>> 8, degrees &&& 0xFF] := by
  unfold MRM_NODE_SERVO_COUNT at hsn
  have h1 : degrees >>> 8 < 256 := by
    rw [Nat.shiftRight_eq_div_pow]
    norm_num
    omega
  unfold servoFrame
  rw [Nat.mod_eq_of_lt hop, Nat.mod_eq_of_lt (by omega : servoNumber < 256), Nat.mod_eq_of_lt h1]

theorem servoFrame_unpack (cfg : Config) (servoNumber degrees : Nat) (hdeg : degrees ≤ 0xFFFF) :
    ∃ b0 b1 b2 b3, servoFrame cfg servoNumber degrees = [b0, b1, b2, b3] ∧
      b2 * 256 + b3 = degrees ∧ b2 ≤ 255 ∧ b3 ≤ 255 := by
  refine ⟨_, _, _, _, rfl, ?_, ?_, ?_⟩
  · have h : degrees &&& 0xFF = degrees % 256 := Nat.and_pow_two_sub_one_eq_mod degrees 8
    rw [h, Nat.shiftRight_eq_div_pow]
    norm_num at hdeg ⊢
    omega
  · omega
  · have h : degrees &&& 0xFF = degrees % 256 := Nat.and_pow_two_sub_one_eq_mod degrees 8
    rw [h]
    omega

/-- What `servoWrite` does for a valid servo of a board in the table whose
stored angle differs from the new one. -/
theorem servoWrite_changed (cfg : Config) (servoNumber degrees deviceNumber : Nat)
    (s : Mrm_node) (row : List Nat) (current : Nat)
    (hsn : servoNumber < MRM_NODE_SERVO_COUNT)
    (hrow : s.servoDegrees[deviceNumber]? = some row) (hcur : row[servoNumber]? = some current)
    (hne : degrees ≠ current) :
    servoWrite cfg servoNumber degrees deviceNumber s =
      .ok { s with
            canData := servoFrame cfg servoNumber degrees ++ s.canData.drop 4
            servoDegrees := s.servoDegrees.set deviceNumber (row.set servoNumber degrees)
            bus := s.bus ++
              [BusEvent.messageSend (servoFrame cfg servoNumber degrees) deviceNumber] } := by
  have hlt := lt_length_of_getElem? hcur
  have h1 : ¬ servoNumber ≥ MRM_NODE_SERVO_COUNT := by omega
  have hread : readCell s.servoDegrees deviceNumber servoNumber = some current := by
    simp [readCell, hrow, hcur]
  have htake : (servoFrame cfg servoNumber degrees ++ s.canData.drop 4).take 4 =
      servoFrame cfg servoNumber degrees := by
    simp [servoFrame]
  simp only [servoWrite, if_neg h1, hread, hne, ne_eq, not_false_eq_true, if_true,
    writeCell_eq degrees hrow hlt, htake]

/-- What `servoWrite` does when the stored angle is the new one: nothing. -/
theorem servoWrite_same (cfg : Config) (servoNumber degrees deviceNumber : Nat)
    (s : Mrm_node) (hsn : servoNumber < MRM_NODE_SERVO_COUNT)
    (hread : readCell s.servoDegrees deviceNumber servoNumber = some degrees) :
    servoWrite cfg servoNumber degrees deviceNumber s = .ok s := by
  have h1 : ¬ servoNumber ≥ MRM_NODE_SERVO_COUNT := by omega
  simp [servoWrite, if_neg h1, hread]

/-- C7: for a valid servo index of a board in the table and a 16 bit angle
other than the stored one, `servoWrite` hands exactly one frame to
`messageSend`, the four bytes `[COMMAND_NODE_SERVO_SET, servoNumber,
degrees >> 8, degrees & 0xFF]`, stores the angle in
`servoDegrees[deviceNumber][servoNumber]`, and leaves every other servo
entry, the readings, the switches and the devices as they were. -/
theorem C7_servoWrite_frame (cfg : Config) (servoNumber degrees deviceNumber : Nat)
    (s : Mrm_node) (current : Nat)
    (hop : cfg.COMMAND_NODE_SERVO_SET < 256) (hsn : servoNumber < MRM_NODE_SERVO_COUNT)
    (hdeg : degrees < 65536)
    (hcur : readCell s.servoDegrees deviceNumber servoNumber = some current)
    (hne : degrees ≠ current) :
    ∃ s', servoWrite cfg servoNumber degrees deviceNumber s = .ok s' ∧
      s'.bus = s.bus ++ [BusEvent.messageSend
        [cfg.COMMAND_NODE_SERVO_SET, servoNumber, degrees >>> 8, degrees &&& 0xFF] deviceNumber] ∧
      readCell s'.servoDegrees deviceNumber servoNumber = some degrees ∧
      (∀ i j, (i ≠ deviceNumber ∨ j ≠ servoNumber) →
        readCell s'.servoDegrees i j = readCell s.servoDegrees i j) ∧
      s'.readings = s.readings ∧ s'.switches = s.switches ∧ s'.devices = s.devices := by
  obtain ⟨row, hrow, hcell⟩ := readCell_some hcur
  have hi := lt_length_of_getElem? hrow
  have hj := lt_length_of_getElem? hcell
  refine ⟨_, servoWrite_changed cfg servoNumber degrees deviceNumber s row current hsn hrow hcell
    hne, ?_, ?_, ?_, rfl, rfl, rfl⟩
  · rw [← servoFrame_bytes cfg servoNumber degrees hop hsn hdeg]
  · show readCell (s.servoDegrees.set deviceNumber (row.set servoNumber degrees)) _ _ = _
    rw [readCell_set_same _ _ _ _ hi]
    exact List.getElem?_set_self hj
  · intro i j hij
    show readCell (s.servoDegrees.set deviceNumber (row.set servoNumber degrees)) i j = _
    by_cases h : deviceNumber = i
    · subst h
      have hjn : servoNumber ≠ j := by
        rcases hij with h | h
        · exact absurd rfl h
        · exact Ne.symm h
      rw [readCell_set_same _ _ _ _ hi, List.getElem?_set_ne hjn]
      simp [readCell, hrow]
    · exact readCell_set_other _ _ _ _ _ h

theorem C7_servoWrite_frame_witness :
    (demoConfig.COMMAND_NODE_SERVO_SET < 256 ∧ 1 < MRM_NODE_SERVO_COUNT ∧ 300 < 65536) ∧
      readCell oneBoard.servoDegrees 0 1 = some 65535 ∧ (300 : Nat) ≠ 65535 ∧
      ∃ s', servoWrite demoConfig 1 300 0 oneBoard = .ok s' ∧
        s'.bus = oneBoard.bus ++ [BusEvent.messageSend
          [demoConfig.COMMAND_NODE_SERVO_SET, 1, 300 >>> 8, 300 &&& 0xFF] 0] ∧
        readCell s'.servoDegrees 0 1 = some 300 ∧
        (∀ i j, (i ≠ 0 ∨ j ≠ 1) →
          readCell s'.servoDegrees i j = readCell oneBoard.servoDegrees i j) ∧
        s'.readings = oneBoard.readings ∧ s'.switches = oneBoard.switches ∧
        s'.devices = oneBoard.devices :=
  ⟨by decide, by decide, by decide,
    C7_servoWrite_frame demoConfig 1 300 0 oneBoard 65535 (by decide) (by decide) (by decide)
      (by decide) (by decide)⟩

/-- C8: for a valid servo index of a board in the table, `servoWrite` called
twice in a row with the same arguments sends a frame at most on the first
call (and does so when the angle differs from the stored one); the second
call returns the object exactly as the first call left it, so it sends
nothing. -/
theorem C8_servoWrite_idempotent (cfg : Config) (servoNumber degrees deviceNumber : Nat)
    (s : Mrm_node) (current : Nat) (hsn : servoNumber < MRM_NODE_SERVO_COUNT)
    (hcur : readCell s.servoDegrees deviceNumber servoNumber = some current) :
    ∃ s1, servoWrite cfg servoNumber degrees deviceNumber s = .ok s1 ∧
      servoWrite cfg servoNumber degrees deviceNumber s1 = .ok s1 ∧
      (degrees ≠ current → ∃ frame, s1.bus = s.bus ++ [frame]) := by
  by_cases hne : degrees = current
  · subst hne
    exact ⟨s, servoWrite_same cfg servoNumber degrees deviceNumber s hsn hcur,
      servoWrite_same cfg servoNumber degrees deviceNumber s hsn hcur, fun h => absurd rfl h⟩
  · obtain ⟨row, hrow, hcell⟩ := readCell_some hcur
    have hi := lt_length_of_getElem? hrow
    have hj := lt_length_of_getElem? hcell
    refine ⟨_, servoWrite_changed cfg servoNumber degrees deviceNumber s row current hsn hrow
      hcell hne, ?_, fun _ => ⟨_, rfl⟩⟩
    apply servoWrite_same cfg servoNumber degrees deviceNumber _ hsn
    show readCell (s.servoDegrees.set deviceNumber (row.set servoNumber degrees)) _ _ = _
    rw [readCell_set_same _ _ _ _ hi]
    exact List.getElem?_set_self hj

theorem C8_servoWrite_idempotent_witness :
    2 < MRM_NODE_SERVO_COUNT ∧ readCell oneBoard.servoDegrees 0 2 = some 65535 ∧
      ∃ s1, servoWrite demoConfig 2 90 0 oneBoard = .ok s1 ∧
        servoWrite demoConfig 2 90 0 s1 = .ok s1 ∧
        ((90 : Nat) ≠ 65535 → ∃ frame, s1.bus = oneBoard.bus ++ [frame]) :=
  ⟨by decide, by decide,
    C8_servoWrite_idempotent demoConfig 2 90 0 oneBoard 65535 (by decide) (by decide)⟩

/-- C9: whenever `servoWrite` sends a frame for a 16 bit angle `A`, the frame
has four bytes, bytes 2 and 3 are at most 255, and `byte2 * 256 + byte3` is
`A` again. -/
theorem C9_servo_angle_round_trip (cfg : Config) (servoNumber A deviceNumber : Nat)
    (s s' : Mrm_node) (hA : A ≤ 0xFFFF)
    (hw : servoWrite cfg servoNumber A deviceNumber s = .ok s') (hsent : s'.bus ≠ s.bus) :
    ∃ b0 b1 b2 b3, s'.bus = s.bus ++ [BusEvent.messageSend [b0, b1, b2, b3] deviceNumber] ∧
      b2 * 256 + b3 = A ∧ b2 ≤ 255 ∧ b3 ≤ 255 := by
  obtain ⟨b0, b1, b2, b3, hframe, hround, h2, h3⟩ := servoFrame_unpack cfg servoNumber A hA
  refine ⟨b0, b1, b2, b3, ?_, hround, h2, h3⟩
  unfold servoWrite at hw
  split at hw
  · simp only [Except.ok.injEq] at hw
    rw [← hw] at hsent
    exact absurd rfl hsent
  · split at hw
    · simp at hw
    · split at hw
      · split at hw
        · simp at hw
        · simp only [Except.ok.injEq] at hw
          rw [← hw, ← hframe]
          simp [servoFrame]
      · simp only [Except.ok.injEq] at hw
        rw [← hw] at hsent
        exact absurd rfl hsent

theorem C9_servo_angle_round_trip_witness :
    (513 ≤ 0xFFFF ∧
      servoWrite demoConfig 0 513 0 oneBoard =
        .ok { oneBoard with
              canData := [8, 0, 2, 1, 0, 0, 0, 0]
              servoDegrees := [[513, 65535, 65535], [0, 0, 0]]
              bus := [BusEvent.messageSend [8, 0, 2, 1] 0] } ∧
      [BusEvent.messageSend [8, 0, 2, 1] 0] ≠ oneBoard.bus) ∧
    ∃ b0 b1 b2 b3,
      [BusEvent.messageSend [8, 0, 2, 1] 0] =
        oneBoard.bus ++ [BusEvent.messageSend [b0, b1, b2, b3] 0] ∧
      b2 * 256 + b3 = 513 ∧ b2 ≤ 255 ∧ b3 ≤ 255 :=
  ⟨⟨by decide, by decide, by decide⟩,
    C9_servo_angle_round_trip demoConfig 0 513 0 oneBoard
      { oneBoard with
        canData := [8, 0, 2, 1, 0, 0, 0, 0]
        servoDegrees := [[513, 65535, 65535], [0, 0, 0]]
        bus := [BusEvent.messageSend [8, 0, 2, 1] 0] }
      (by decide) (by decide) (by decide)⟩

/-! ## `messageDecode`: the switch frame -/

theorem decodeFor_switch (cfg : Config) (ext : External) (message : CANMessage) (s : Mrm_node)
    (k : Nat) (d d' : Device)
    (hpass : ext.messageDecodeCommon message (millis s) d = (d', false))
    (hop : message.byte 0 = cfg.COMMAND_NODE_SWITCH_ON) :
    decodeFor cfg ext message k d s =
      if message.byte 1 >>> 1 > 4 then
        .ok (false, { s with devices := s.devices.set k d',
                             errorMessage := ErrorMessage.noSwitch })
      else
        match writeCell s.switches d'.number (message.byte 1 >>> 1)
            ((message.byte 1 &&& 1) != 0) with
        | none => .error Fault.outOfBounds
        | some sw =>
          .ok (true, { s with switches := sw,
                              devices := (s.devices.set k { d' with lastReadingsMs := millis s }) }) := by
  have hd := cfg.caseLabelsDistinct
  simp only [List.nodup_cons, List.mem_cons, List.mem_singleton, not_or] at hd
  obtain ⟨⟨_, _, h14, _⟩, ⟨_, h24, _⟩, ⟨h34, _⟩, _⟩ := hd
  simp [decodeFor, hpass, hop, Ne.symm h14, Ne.symm h24, Ne.symm h34]

/-- The switch scenario evaluated: switch 3 is on afterwards and the board
carries the clock value 77. -/
theorem switch_on_scenario :
    (messageDecode demoConfig quietBus ⟨369, [7, 7, 0, 0, 0, 0, 0, 0]⟩
        { oneBoard with ms := 77 }).map (fun r => (r.2.switches, r.2.devices.map Device.lastReadingsMs)) =
      .ok ([[false, false, false, true, false], [false, false, false, false, false]], [77]) := by
  decide

/-! ## `messageDecode`: what the opcode `switch` leaves alone -/

theorem twoBoards_eq_add :
    (add demoConfig (Mrm_node.new 2)).bind (add demoConfig) = .ok twoBoards := by
  decide

/-- C11: a `COMMAND_NODE_SWITCH_ON` frame that reaches the opcode `switch`
makes `messageDecode` return false exactly when `data[1] >> 1` is at least
the switch count; in that case the "No switch" message is written and the
switches, the readings, the servo angles and `lastReadingsMs` of the board
are as before. -/
theorem C11_invalid_switch_rejected (cfg : Config) (ext : External) (message : CANMessage)
    (s : Mrm_node) (k : Nat) (d : Device)
    (haddr : addressedTo ext message s k d) (hpass : passedOn ext message s d)
    (hkeep : (ext.messageDecodeCommon message (millis s) d).1.lastReadingsMs = d.lastReadingsMs)
    (hop : message.byte 0 = cfg.COMMAND_NODE_SWITCH_ON) :
    ((∃ s', messageDecode cfg ext message s = .ok (false, s')) ↔
        MRM_NODE_SWITCHES_COUNT ≤ message.byte 1 >>> 1) ∧
      (MRM_NODE_SWITCHES_COUNT ≤ message.byte 1 >>> 1 →
        ∃ s', messageDecode cfg ext message s = .ok (false, s') ∧
          s'.errorMessage = ErrorMessage.noSwitch ∧ s'.switches = s.switches ∧
          s'.readings = s.readings ∧ s'.servoDegrees = s.servoDegrees ∧
          s'.devices[k]?.map (fun e => e.lastReadingsMs) = some d.lastReadingsMs) := by
  obtain ⟨hnot, _⟩ := hpass
  have hk := lt_length_of_getElem? haddr.1
  have hdec := (messageDecode_addressed cfg ext message s k d haddr).trans
    (decodeFor_switch cfg ext message s k d _ (Prod.ext rfl hnot) hop)
  have hbad : MRM_NODE_SWITCHES_COUNT ≤ message.byte 1 >>> 1 →
      ∃ s', messageDecode cfg ext message s = .ok (false, s') ∧
        s'.errorMessage = ErrorMessage.noSwitch ∧ s'.switches = s.switches ∧
        s'.readings = s.readings ∧ s'.servoDegrees = s.servoDegrees ∧
        s'.devices[k]?.map (fun e => e.lastReadingsMs) = some d.lastReadingsMs := by
    intro h
    have h4 : message.byte 1 >>> 1 > 4 := by
      unfold MRM_NODE_SWITCHES_COUNT at h
      omega
    rw [if_pos h4] at hdec
    refine ⟨_, hdec, rfl, rfl, rfl, rfl, ?_⟩
    show (s.devices.set k _)[k]?.map _ = _
    rw [List.getElem?_set_self hk, ← hkeep]
    rfl
  refine ⟨⟨?_, fun h => ?_⟩, hbad⟩
  · rintro ⟨s', hs'⟩
    by_contra hlt
    have h4 : ¬ message.byte 1 >>> 1 > 4 := by
      unfold MRM_NODE_SWITCHES_COUNT at hlt
      omega
    rw [hs', if_neg h4] at hdec
    split at hdec <;> simp at hdec
  · obtain ⟨s', hs', _⟩ := hbad h
    exact ⟨s', hs'⟩

/-- The frame `data[1] = (5 << 1) | 1 = 11` names switch 5, which does not
exist. -/
theorem C11_invalid_switch_rejected_witness :
    (CANMessage.byte ⟨369, [7, 11, 0, 0, 0, 0, 0, 0]⟩ 0 = demoConfig.COMMAND_NODE_SWITCH_ON ∧
        MRM_NODE_SWITCHES_COUNT ≤ CANMessage.byte ⟨369, [7, 11, 0, 0, 0, 0, 0, 0]⟩ 1 >>> 1) ∧
      messageDecode demoConfig quietBus ⟨369, [7, 11, 0, 0, 0, 0, 0, 0]⟩ freshBoard =
        .ok (false, { freshBoard with errorMessage := ErrorMessage.noSwitch }) ∧
      ((∃ s', messageDecode demoConfig quietBus ⟨369, [7, 11, 0, 0, 0, 0, 0, 0]⟩ freshBoard =
            .ok (false, s')) ↔
          MRM_NODE_SWITCHES_COUNT ≤ CANMessage.byte ⟨369, [7, 11, 0, 0, 0, 0, 0, 0]⟩ 1 >>> 1) ∧
      (MRM_NODE_SWITCHES_COUNT ≤ CANMessage.byte ⟨369, [7, 11, 0, 0, 0, 0, 0, 0]⟩ 1 >>> 1 →
        ∃ s', messageDecode demoConfig quietBus ⟨369, [7, 11, 0, 0, 0, 0, 0, 0]⟩ freshBoard =
            .ok (false, s') ∧
          s'.errorMessage = ErrorMessage.noSwitch ∧ s'.switches = freshBoard.switches ∧
          s'.readings = freshBoard.readings ∧ s'.servoDegrees = freshBoard.servoDegrees ∧
          s'.devices[0]?.map (fun e => e.lastReadingsMs) = some 77) :=
  ⟨by decide, by decide,
    C11_invalid_switch_rejected demoConfig quietBus ⟨369, [7, 11, 0, 0, 0, 0, 0, 0]⟩ freshBoard 0
      { number := 0, canIdIn := 368, canIdOut := 369, alive := false, lastReadingsMs := 77 }
      ⟨by decide, by decide, by decide⟩ ⟨by decide, by decide⟩ (by decide) (by decide)⟩

/-- The device entry after a sensor group frame: stamped with the clock by
group 3 (`start = 6`), as the common decoder left it otherwise. -/
theorem group_decoded_stamp (cfg : Config) (ext : External) (message : CANMessage)
    (s : Mrm_node) (k : Nat) (d : Device) (row : List Nat) (start : Nat)
    (haddr : addressedTo ext message s k d) (hpass : passedOn ext message s d)
    (hrow : s.readings[d.number]? = some row) (hlen : row.length = MRM_NODE_ANALOG_COUNT)
    (hop : (message.byte 0 = cfg.COMMAND_NODE_SENDING_SENSORS_1_TO_3 ∧ start = 0) ∨
      (message.byte 0 = cfg.COMMAND_NODE_SENDING_SENSORS_4_TO_6 ∧ start = 3) ∨
      (message.byte 0 = cfg.COMMAND_NODE_SENDING_SENSORS_7_TO_9 ∧ start = 6)) :
    ∃ s', messageDecode cfg ext message s = .ok (true, s') ∧
      s'.devices[k]?.map (fun e => e.lastReadingsMs) =
        some (if start = 6 then millis s
          else (ext.messageDecodeCommon message (millis s) d).1.lastReadingsMs) := by
  obtain ⟨hnot, hnum⟩ := hpass
  have hk := lt_length_of_getElem? haddr.1
  have hstart : start + 3 ≤ row.length := by
    rw [hlen]
    unfold MRM_NODE_ANALOG_COUNT
    omega
  have hdec := decodeFor_group cfg ext message s k d _ start (Prod.ext rfl hnot) hop
  rw [← hnum] at hrow
  obtain ⟨row', hst, _, _⟩ := storeGroup_spec message
    (ext.messageDecodeCommon message (millis s) d).1.number start
    { s with devices := (s.devices.set k
        (if start = 6 then
          { (ext.messageDecodeCommon message (millis s) d).1 with lastReadingsMs := millis s }
        else (ext.messageDecodeCommon message (millis s) d).1)) } row hrow hstart
  rw [hst] at hdec
  refine ⟨_, (messageDecode_addressed cfg ext message s k d haddr).trans hdec, ?_⟩
  show (s.devices.set k _)[k]?.map _ = _
  rw [List.getElem?_set_self hk]
  by_cases h6 : start = 6 <;> simp [h6]

/-- C12: for a frame that reaches the opcode `switch` and a common decoder
that leaves `lastReadingsMs` alone, decoding a frame of sensor group 1 or 2
leaves `lastReadingsMs` of the board as it was, and decoding a frame of
sensor group 3 sets it to the clock value. -/
theorem C12_heartbeat_is_group_3 (cfg : Config) (ext : External) (message : CANMessage)
    (s : Mrm_node) (k : Nat) (d : Device) (row : List Nat)
    (haddr : addressedTo ext message s k d) (hpass : passedOn ext message s d)
    (hkeep : (ext.messageDecodeCommon message (millis s) d).1.lastReadingsMs = d.lastReadingsMs)
    (hrow : s.readings[d.number]? = some row) (hlen : row.length = MRM_NODE_ANALOG_COUNT) :
    ((message.byte 0 = cfg.COMMAND_NODE_SENDING_SENSORS_1_TO_3 ∨
        message.byte 0 = cfg.COMMAND_NODE_SENDING_SENSORS_4_TO_6) →
      ∃ s', messageDecode cfg ext message s = .ok (true, s') ∧
        s'.devices[k]?.map (fun e => e.lastReadingsMs) = some d.lastReadingsMs) ∧
    (message.byte 0 = cfg.COMMAND_NODE_SENDING_SENSORS_7_TO_9 →
      ∃ s', messageDecode cfg ext message s = .ok (true, s') ∧
        s'.devices[k]?.map (fun e => e.lastReadingsMs) = some (millis s)) := by
  constructor
  · intro h
    rcases h with h | h
    · obtain ⟨s', h1, h2⟩ := group_decoded_stamp cfg ext message s k d row 0 haddr hpass hrow
        hlen (Or.inl ⟨h, rfl⟩)
      exact ⟨s', h1, by simpa [hkeep] using h2⟩
    · obtain ⟨s', h1, h2⟩ := group_decoded_stamp cfg ext message s k d row 3 haddr hpass hrow
        hlen (Or.inr (Or.inl ⟨h, rfl⟩))
      exact ⟨s', h1, by simpa [hkeep] using h2⟩
  · intro h
    obtain ⟨s', h1, h2⟩ := group_decoded_stamp cfg ext message s k d row 6 haddr hpass hrow
      hlen (Or.inr (Or.inr ⟨h, rfl⟩))
    exact ⟨s', h1, by simpa using h2⟩

/-- A frame of group 2 and a frame of group 3 for the board of `freshBoard`
(stamp 77, clock 100). -/
theorem C12_heartbeat_is_group_3_witness :
    (CANMessage.byte ⟨369, [5, 1, 2, 0, 5, 0, 9, 0]⟩ 0 =
        demoConfig.COMMAND_NODE_SENDING_SENSORS_4_TO_6 ∧
      CANMessage.byte ⟨369, [6, 1, 2, 0, 5, 0, 9, 0]⟩ 0 =
        demoConfig.COMMAND_NODE_SENDING_SENSORS_7_TO_9) ∧
    (∃ s', messageDecode demoConfig quietBus ⟨369, [5, 1, 2, 0, 5, 0, 9, 0]⟩ freshBoard =
        .ok (true, s') ∧ s'.devices[0]?.map (fun e => e.lastReadingsMs) = some 77) ∧
    (∃ s', messageDecode demoConfig quietBus ⟨369, [6, 1, 2, 0, 5, 0, 9, 0]⟩ freshBoard =
        .ok (true, s') ∧
      s'.devices[0]?.map (fun e => e.lastReadingsMs) = some (millis freshBoard)) :=
  ⟨by decide,
    (C12_heartbeat_is_group_3 demoConfig quietBus ⟨369, [5, 1, 2, 0, 5, 0, 9, 0]⟩ freshBoard 0
      { number := 0, canIdIn := 368, canIdOut := 369, alive := false, lastReadingsMs := 77 }
      [0, 0, 0, 0, 0, 0, 0, 0, 0]
      ⟨by decide, by decide, by decide⟩ ⟨by decide, by decide⟩ (by decide) (by decide)
      (by decide)).1 (Or.inr (by decide)),
    (C12_heartbeat_is_group_3 demoConfig quietBus ⟨369, [6, 1, 2, 0, 5, 0, 9, 0]⟩ freshBoard 0
      { number := 0, canIdIn := 368, canIdOut := 369, alive := false, lastReadingsMs := 77 }
      [0, 0, 0, 0, 0, 0, 0, 0, 0]
      ⟨by decide, by decide, by decide⟩ ⟨by decide, by decide⟩ (by decide) (by decide)
      (by decide)).2 (by decide)⟩

theorem decodeFor_unknown (cfg : Config) (ext : External) (message : CANMessage) (s : Mrm_node)
    (k : Nat) (d d' : Device)
    (hpass : ext.messageDecodeCommon message (millis s) d = (d', false))
    (h1 : message.byte 0 ≠ cfg.COMMAND_NODE_SENDING_SENSORS_1_TO_3)
    (h2 : message.byte 0 ≠ cfg.COMMAND_NODE_SENDING_SENSORS_4_TO_6)
    (h3 : message.byte 0 ≠ cfg.COMMAND_NODE_SENDING_SENSORS_7_TO_9)
    (h4 : message.byte 0 ≠ cfg.COMMAND_NODE_SWITCH_ON) :
    decodeFor cfg ext message k d s =
      .ok (true, { s with devices := s.devices.set k d',
                          unknownCommands := s.unknownCommands ++ [message] }) := by
  simp [decodeFor, hpass, h1, h2, h3, h4]

/-- C13: a frame for a registered board that the common decoder passes on
and whose opcode is none of the four case labels is reported through
`errorAdd(message, ERROR_COMMAND_UNKNOWN, ...)`; `messageDecode` returns true
and the readings, switches and servo angles of the object and
`lastReadingsMs` of the board are as before. -/
theorem C13_unknown_opcode_dropped (cfg : Config) (ext : External) (message : CANMessage)
    (s : Mrm_node) (k : Nat) (d : Device)
    (haddr : addressedTo ext message s k d) (hpass : passedOn ext message s d)
    (hkeep : (ext.messageDecodeCommon message (millis s) d).1.lastReadingsMs = d.lastReadingsMs)
    (h1 : message.byte 0 ≠ cfg.COMMAND_NODE_SENDING_SENSORS_1_TO_3)
    (h2 : message.byte 0 ≠ cfg.COMMAND_NODE_SENDING_SENSORS_4_TO_6)
    (h3 : message.byte 0 ≠ cfg.COMMAND_NODE_SENDING_SENSORS_7_TO_9)
    (h4 : message.byte 0 ≠ cfg.COMMAND_NODE_SWITCH_ON) :
    ∃ s', messageDecode cfg ext message s = .ok (true, s') ∧
      s'.unknownCommands = s.unknownCommands ++ [message] ∧
      s'.readings = s.readings ∧ s'.switches = s.switches ∧
      s'.servoDegrees = s.servoDegrees ∧
      s'.devices[k]?.map (fun e => e.lastReadingsMs) = some d.lastReadingsMs := by
  obtain ⟨hnot, _⟩ := hpass
  have hk := lt_length_of_getElem? haddr.1
  refine ⟨_, (messageDecode_addressed cfg ext message s k d haddr).trans
    (decodeFor_unknown cfg ext message s k d _ (Prod.ext rfl hnot) h1 h2 h3 h4),
    rfl, rfl, rfl, rfl, ?_⟩
  show (s.devices.set k _)[k]?.map _ = _
  rw [List.getElem?_set_self hk, ← hkeep]
  rfl

/-- A frame that carries the opcode `COMMAND_NODE_SERVO_SET` (8). -/
theorem C13_unknown_opcode_dropped_witness :
    CANMessage.byte ⟨369, [8, 1, 0, 90, 0, 0, 0, 0]⟩ 0 = demoConfig.COMMAND_NODE_SERVO_SET ∧
      ∃ s', messageDecode demoConfig quietBus ⟨369, [8, 1, 0, 90, 0, 0, 0, 0]⟩ freshBoard =
          .ok (true, s') ∧
        s'.unknownCommands = freshBoard.unknownCommands ++ [⟨369, [8, 1, 0, 90, 0, 0, 0, 0]⟩] ∧
        s'.readings = freshBoard.readings ∧ s'.switches = freshBoard.switches ∧
        s'.servoDegrees = freshBoard.servoDegrees ∧
        s'.devices[0]?.map (fun e => e.lastReadingsMs) = some 77 :=
  ⟨by decide,
    C13_unknown_opcode_dropped demoConfig quietBus ⟨369, [8, 1, 0, 90, 0, 0, 0, 0]⟩ freshBoard 0
      { number := 0, canIdIn := 368, canIdOut := 369, alive := false, lastReadingsMs := 77 }
      ⟨by decide, by decide, by decide⟩ ⟨by decide, by decide⟩ (by decide)
      (by decide) (by decide) (by decide) (by decide)⟩

/-! ## `servoWrite`: the two arguments that are indices -/

/-- C16: for a servo number of at least `MRM_NODE_SERVO_COUNT`, whatever the
angle and the object, `servoWrite` writes the "Servo not found" message and
returns; nothing goes to the bus and nothing else in the object changes. -/
theorem C16_invalid_servo_rejected (cfg : Config) (servoNumber degrees deviceNumber : Nat)
    (s : Mrm_node) (h : MRM_NODE_SERVO_COUNT ≤ servoNumber) :
    servoWrite cfg servoNumber degrees deviceNumber s =
      .ok { s with errorMessage := ErrorMessage.servoNotFound } := by
  simp [servoWrite, h]

theorem C16_invalid_servo_rejected_witness :
    MRM_NODE_SERVO_COUNT ≤ 3 ∧
      servoWrite demoConfig 3 90 0 oneBoard =
        .ok { oneBoard with errorMessage := ErrorMessage.servoNotFound } :=
  ⟨by decide, C16_invalid_servo_rejected demoConfig 3 90 0 oneBoard (by decide)⟩

/-- The number of registered boards has no part in what `servoWrite` does. -/
theorem servoWrite_ignores_nextFree (cfg : Config) (servoNumber degrees deviceNumber n : Nat)
    (s : Mrm_node) :
    servoWrite cfg servoNumber degrees deviceNumber { s with nextFree := n } =
      (servoWrite cfg servoNumber degrees deviceNumber s).map (fun t => { t with nextFree := n }) := by
  unfold servoWrite
  dsimp only
  split
  · rfl
  · split
    · rfl
    · split
      · split <;> rfl
      · rfl

/-- C15, the failing input: one registered board in an object built for
two.  `servoWrite(0, 90, 1)` names slot 1, which is not registered: no error
is reported, `servoDegrees[1][0]` is read and written and a frame for
device 1 goes to `messageSend`.  With slot 2 the access is outside the
vector.  `reading` rejects slot 1. -/
theorem C15_servoWrite_unregistered_slot :
    oneBoard.nextFree = 1 ∧
      servoWrite demoConfig 0 90 1 oneBoard =
        .ok { oneBoard with
              canData := [8, 0, 0, 90, 0, 0, 0, 0]
              servoDegrees := [[65535, 65535, 65535], [90, 0, 0]]
              bus := [BusEvent.messageSend [8, 0, 0, 90] 1] } ∧
      servoWrite demoConfig 0 90 2 oneBoard = .error Fault.outOfBounds ∧
      reading demoConfig quietBus 51 0 1 oneBoard =
        .ok (0, { oneBoard with errorMessage := ErrorMessage.doesntExist 1 }) := by
  decide

/-! ## `add`: the address table -/

/-- C14, the failing input: slots 3 and 4.  For every configuration the
table of `add` gives both the outbound identifier `CAN_ID_NODE4_OUT`, and
slot 2 gets `CAN_ID_NODE3_OUT`; `CAN_ID_NODE2_OUT` is given to nobody. -/
theorem C14_slots_3_and_4_share_canOut (cfg : Config) :
    addressFor cfg 2 = some (cfg.CAN_ID_NODE_IN 2, cfg.CAN_ID_NODE_OUT 3) ∧
      addressFor cfg 3 = some (cfg.CAN_ID_NODE_IN 3, cfg.CAN_ID_NODE_OUT 4) ∧
      addressFor cfg 4 = some (cfg.CAN_ID_NODE_IN 4, cfg.CAN_ID_NODE_OUT 4) ∧
      (addressFor cfg 3).map Prod.snd = (addressFor cfg 4).map Prod.snd :=
  ⟨rfl, rfl, rfl, rfl⟩

/-- Five boards registered one after the other: the fourth and the fifth
carry the same outbound identifier. -/
theorem five_boards_share_canOut :
    (((((add demoConfig (Mrm_node.new 8)).bind (add demoConfig)).bind (add demoConfig)).bind
        (add demoConfig)).bind (add demoConfig)).map
        (fun s => s.devices.map (fun d => (d.number, d.canIdIn, d.canIdOut))) =
      .ok [(0, 368, 369), (1, 370, 371), (2, 372, 375), (3, 374, 377), (4, 376, 377)] := by
  decide

/-- What holds of the table when the sixteen identifiers are pairwise
distinct: the inbound identifiers of two slots differ, and so do the
pairs. -/
theorem addressFor_canIn_injective (cfg : Config)
    (hin : ∀ a b, a < 8 → b < 8 → a ≠ b → cfg.CAN_ID_NODE_IN a ≠ cfg.CAN_ID_NODE_IN b)
    (a b : Nat) (ha : a < 8) (hb : b < 8) (hab : a ≠ b) :
    (addressFor cfg a).map Prod.fst ≠ (addressFor cfg b).map Prod.fst ∧
      addressFor cfg a ≠ addressFor cfg b := by
  have h := hin a b ha hb hab
  interval_cases a <;> interval_cases b <;>
    first
    | exact absurd rfl hab
    | (simp only [addressFor, Option.map_some', ne_eq, Option.some.injEq, Prod.mk.injEq, not_and]
       exact ⟨h, fun h' => absurd h' h⟩)

/-! ## `add`: registration -/

theorem set_same_row {α : Type} (table : List (List α)) (i : Nat) (row : List α)
    (hrow : table[i]? = some row) : table.set i row = table := by
  have hi := lt_length_of_getElem? hrow
  apply List.ext_getElem?
  intro j
  by_cases hij : i = j
  · subst hij
    rw [List.getElem?_set_self hi, hrow]
  · rw [List.getElem?_set_ne hij]

/-- The loop that fills the first `n` cells of a row. -/
theorem fillRow_spec {α : Type} (table : List (List α)) (row : Nat) (v : α) (r : List α)
    (n : Nat) (hrow : table[row]? = some r) (hn : n ≤ r.length) :
    ∃ r', fillRow table row v n = some (table.set row r') ∧ r'.length = r.length ∧
      ∀ c, r'[c]? = if c < n then some v else r[c]? := by
  have hi := lt_length_of_getElem? hrow
  induction n with
  | zero =>
    refine ⟨r, ?_, rfl, ?_⟩
    · simp [fillRow, set_same_row table row r hrow]
    · intro c
      rw [if_neg (by omega)]
  | succ n ih =>
    obtain ⟨r', hfill, hl, hget⟩ := ih (by omega)
    have hrow' : (table.set row r')[row]? = some r' := List.getElem?_set_self hi
    have hj : n < r'.length := by omega
    refine ⟨r'.set n v, ?_, by simp [hl], ?_⟩
    · simp only [fillRow, hfill]
      rw [writeCell_eq _ hrow' hj, List.set_set]
    · intro c
      rw [List.getElem?_set, hget c]
      by_cases hc : n = c
      · subst hc
        simp [hj]
      · have h1 : c < n + 1 ↔ c < n := by omega
        simp [hc, h1]

theorem writeCell_some {α : Type} {table t' : List (List α)} {i j : Nat} {v : α}
    (h : writeCell table i j v = some t') :
    ∃ r, table[i]? = some r ∧ j < r.length := by
  unfold writeCell at h
  cases hrow : table[i]? with
  | none => simp [hrow] at h
  | some r =>
    refine ⟨r, rfl, ?_⟩
    by_contra hj
    simp [hrow, hj] at h

/-- A fill of at least one cell that went through had its row. -/
theorem fillRow_row {α : Type} (table t' : List (List α)) (row : Nat) (v : α) (n : Nat)
    (h : fillRow table row v (n + 1) = some t') :
    ∃ r, table[row]? = some r ∧ n < r.length := by
  induction n generalizing t' with
  | zero =>
    simp only [fillRow] at h
    exact writeCell_some h
  | succ n ih =>
    rw [fillRow] at h
    cases hprev : fillRow table row v (n + 1) with
    | none => simp [hprev] at h
    | some t =>
      obtain ⟨r, hrow, hn⟩ := ih t hprev
      refine ⟨r, hrow, ?_⟩
      obtain ⟨r', hfill, hl, _⟩ := fillRow_spec table row v r (n + 1) hrow (by omega)
      rw [hprev] at hfill
      simp only [hprev] at h
      obtain ⟨r2, hr2, hlt⟩ := writeCell_some h
      have hi := lt_length_of_getElem? hrow
      rw [Option.some.inj hfill, List.getElem?_set_self hi] at hr2
      rw [← Option.some.inj hr2] at hlt
      omega

/-- What `add` does when the slot is in the address table and the rows of
the slot exist. -/
theorem add_registers (cfg : Config) (s : Mrm_node) (canIn canOut : Nat)
    (swRow : List Bool) (sdRow : List Nat)
    (haddr : addressFor cfg s.nextFree = some (canIn, canOut))
    (hsw : s.switches[s.nextFree]? = some swRow) (hswl : MRM_NODE_SWITCHES_COUNT ≤ swRow.length)
    (hsd : s.servoDegrees[s.nextFree]? = some sdRow) (hsdl : MRM_NODE_SERVO_COUNT ≤ sdRow.length) :
    ∃ swRow' sdRow',
      add cfg s = .ok (sensorBoardAdd canIn canOut
        { s with switches := s.switches.set s.nextFree swRow',
                 servoDegrees := s.servoDegrees.set s.nextFree sdRow' }) ∧
      (∀ c, swRow'[c]? = if c < MRM_NODE_SWITCHES_COUNT then some false else swRow[c]?) ∧
      (∀ c, sdRow'[c]? = if c < MRM_NODE_SERVO_COUNT then some 0xFFFF else sdRow[c]?) := by
  obtain ⟨swRow', h1, _, hget1⟩ :=
    fillRow_spec s.switches s.nextFree false swRow MRM_NODE_SWITCHES_COUNT hsw hswl
  obtain ⟨sdRow', h2, _, hget2⟩ :=
    fillRow_spec s.servoDegrees s.nextFree 0xFFFF sdRow MRM_NODE_SERVO_COUNT hsd hsdl
  refine ⟨swRow', sdRow', ?_, hget1, hget2⟩
  simp only [add, haddr, h1, h2]

theorem addressFor_some (cfg : Config) (n : Nat) (h : n < 8) :
    ∃ canIn canOut, addressFor cfg n = some (canIn, canOut) := by
  interval_cases n <;> exact ⟨_, _, rfl⟩

theorem eightBoards_registered :
    eightBoards.nextFree = 8 ∧ eightBoards.devices.length = 8 ∧
      eightBoards.devices.map (fun d => d.canIdOut) = [369, 371, 375, 377, 377, 379, 381, 383] := by
  decide

/-- An object built for two boards has no rows for a third: `add` with
`nextFree = 2` writes outside the vectors although the address table has an
entry for slot 2. -/
theorem add_beyond_constructed_rows : add demoConfig twoBoards = .error Fault.outOfBounds := by
  decide

/-! ## `messageDecode`: what a frame can reach -/

theorem writeCell_other {α : Type} {table t' : List (List α)} {i j : Nat} {v : α}
    (h : writeCell table i j v = some t') :
    t'.length = table.length ∧ ∀ i', i' ≠ i → t'[i']? = table[i']? := by
  obtain ⟨r, hrow, hj⟩ := writeCell_some h
  rw [writeCell_eq v hrow hj] at h
  rw [← Option.some.inj h]
  refine ⟨List.length_set _ _ _, ?_⟩
  intro i' hi'
  exact List.getElem?_set_ne (Ne.symm hi')

theorem storeReadings_other (message : CANMessage) (number start : Nat)
    (table t' : List (List Nat)) (n : Nat)
    (h : storeReadings message number start table n = some t') :
    t'.length = table.length ∧ ∀ i, i ≠ number → t'[i]? = table[i]? := by
  induction n generalizing t' with
  | zero =>
    simp only [storeReadings, Option.some.injEq] at h
    rw [← h]
    exact ⟨rfl, fun _ _ => rfl⟩
  | succ n ih =>
    rw [storeReadings] at h
    cases hprev : storeReadings message number start table n with
    | none => simp [hprev] at h
    | some t =>
      simp only [hprev] at h
      obtain ⟨hl, hother⟩ := ih t hprev
      obtain ⟨hl', hother'⟩ := writeCell_other h
      exact ⟨hl'.trans hl, fun i hi => (hother' i hi).trans (hother i hi)⟩

/-- What storing a sensor group can change: readings in the row `number`. -/
theorem storeGroup_frame (message : CANMessage) (number start : Nat) (s s' : Mrm_node)
    (b : Bool) (h : storeGroup message number start s = .ok (b, s')) :
    s' = { s with readings := s'.readings } ∧ s'.readings.length = s.readings.length ∧
      ∀ i, i ≠ number → s'.readings[i]? = s.readings[i]? := by
  unfold storeGroup at h
  cases hst : storeReadings message number start s.readings 3 with
  | none => simp [hst] at h
  | some r =>
    simp only [hst, Except.ok.injEq, Prod.mk.injEq] at h
    obtain ⟨hl, hother⟩ := storeReadings_other message number start s.readings r 3 hst
    rw [← h.2]
    exact ⟨rfl, hl, hother⟩

/-- What the loop body of `messageDecode` can change for the device at
position `k`, whatever the frame: the entry `k` of `devices`, the readings
and switches in the row of that device, the error message and the log of
unknown commands. -/
theorem decodeFor_frame (cfg : Config) (ext : External) (message : CANMessage) (k : Nat)
    (d : Device) (s s' : Mrm_node) (b : Bool)
    (h : decodeFor cfg ext message k d s = .ok (b, s')) :
    s'.nextFree = s.nextFree ∧ s'.servoDegrees = s.servoDegrees ∧ s'.bus = s.bus ∧
      (∃ e, s'.devices = s.devices.set k e ∧
        e.number = (ext.messageDecodeCommon message (millis s) d).1.number) ∧
      s'.readings.length = s.readings.length ∧ s'.switches.length = s.switches.length ∧
      ∀ i, i ≠ (ext.messageDecodeCommon message (millis s) d).1.number →
        s'.readings[i]? = s.readings[i]? ∧ s'.switches[i]? = s.switches[i]? := by
  unfold decodeFor at h
  dsimp only at h
  split at h
  · simp only [Except.ok.injEq, Prod.mk.injEq] at h
    rw [← h.2]
    exact ⟨rfl, rfl, rfl, ⟨_, rfl, rfl⟩, rfl, rfl, fun _ _ => ⟨rfl, rfl⟩⟩
  · split at h
    · obtain ⟨heq, hl, hother⟩ := storeGroup_frame _ _ _ _ _ _ h
      rw [heq]
      exact ⟨rfl, rfl, rfl, ⟨_, rfl, rfl⟩, hl, rfl, fun i hi => ⟨hother i hi, rfl⟩⟩
    · split at h
      · obtain ⟨heq, hl, hother⟩ := storeGroup_frame _ _ _ _ _ _ h
        rw [heq]
        exact ⟨rfl, rfl, rfl, ⟨_, rfl, rfl⟩, hl, rfl, fun i hi => ⟨hother i hi, rfl⟩⟩
      · split at h
        · obtain ⟨heq, hl, hother⟩ := storeGroup_frame _ _ _ _ _ _ h
          rw [heq]
          exact ⟨rfl, rfl, rfl, ⟨_, rfl, rfl⟩, hl, rfl, fun i hi => ⟨hother i hi, rfl⟩⟩
        · split at h
          · split at h
            · simp only [Except.ok.injEq, Prod.mk.injEq] at h
              rw [← h.2]
              exact ⟨rfl, rfl, rfl, ⟨_, rfl, rfl⟩, rfl, rfl, fun _ _ => ⟨rfl, rfl⟩⟩
            · split at h
              · simp at h
              · rename_i sw hsw
                simp only [Except.ok.injEq, Prod.mk.injEq] at h
                obtain ⟨hl, hother⟩ := writeCell_other hsw
                rw [← h.2]
                exact ⟨rfl, rfl, rfl, ⟨_, rfl, rfl⟩, rfl, hl, fun i hi => ⟨rfl, hother i hi⟩⟩
          · simp only [Except.ok.injEq, Prod.mk.injEq] at h
            rw [← h.2]
            exact ⟨rfl, rfl, rfl, ⟨_, rfl, rfl⟩, rfl, rfl, fun _ _ => ⟨rfl, rfl⟩⟩

/-- With the rows of the device in place the loop body returns, whatever the
frame. -/
theorem decodeFor_returns (cfg : Config) (ext : External) (message : CANMessage) (k : Nat)
    (d : Device) (s : Mrm_node) (row : List Nat) (swRow : List Bool)
    (hrow : s.readings[(ext.messageDecodeCommon message (millis s) d).1.number]? = some row)
    (hlen : row.length = MRM_NODE_ANALOG_COUNT)
    (hsw : s.switches[(ext.messageDecodeCommon message (millis s) d).1.number]? = some swRow)
    (hswl : swRow.length = MRM_NODE_SWITCHES_COUNT) :
    ∃ b s', decodeFor cfg ext message k d s = .ok (b, s') := by
  unfold MRM_NODE_ANALOG_COUNT at hlen
  unfold MRM_NODE_SWITCHES_COUNT at hswl
  unfold decodeFor
  dsimp only
  split
  · exact ⟨_, _, rfl⟩
  · split
    · obtain ⟨row', hst, _, _⟩ := storeGroup_spec message _ 0
        { s with devices := (s.devices.set k (ext.messageDecodeCommon message (millis s) d).1) }
        row hrow (by omega)
      exact ⟨_, _, hst⟩
    · split
      · obtain ⟨row', hst, _, _⟩ := storeGroup_spec message _ 3
          { s with devices := (s.devices.set k (ext.messageDecodeCommon message (millis s) d).1) }
          row hrow (by omega)
        exact ⟨_, _, hst⟩
      · split
        · obtain ⟨row', hst, _, _⟩ := storeGroup_spec message _ 6
            { s with devices := (s.devices.set k
                { (ext.messageDecodeCommon message (millis s) d).1 with
                  lastReadingsMs := millis s }) }
            row hrow (by omega)
          exact ⟨_, _, hst⟩
        · split
          · split
            · exact ⟨_, _, rfl⟩
            · rename_i h4
              rw [writeCell_eq _ hsw (by omega)]
              exact ⟨_, _, rfl⟩
          · exact ⟨_, _, rfl⟩

theorem decodeLoop_none (cfg : Config) (ext : External) (message : CANMessage) (s : Mrm_node)
    (l : List Device) (j : Nat) (h : ∀ e ∈ l, ext.isForMe message.id e = false) :
    decodeLoop cfg ext message s l j = .ok (false, s) := by
  induction l generalizing j with
  | nil => rfl
  | cons e rest ih =>
    have he : ext.isForMe message.id e = false := h e (by simp)
    simp only [decodeLoop, he]
    exact ih (j + 1) (fun x hx => h x (by simp [hx]))

/-- C20: `messageDecode` returns false and leaves the whole object as it was
when `isForMe` accepts no registered device.  When the frame is handed to
the device at position `k` (number `d.number`), the call returns, and
whatever the frame: the servo angles are as before, every other entry of
`devices` (with its `lastReadingsMs`) is as before, and the readings and
switches in the rows of every other number are as before. -/
theorem C20_decode_touches_one_board (cfg : Config) (ext : External) (message : CANMessage)
    (s : Mrm_node) :
    ((∀ e ∈ s.devices, ext.isForMe message.id e = false) →
      messageDecode cfg ext message s = .ok (false, s)) ∧
    (∀ (k : Nat) (d : Device) (row : List Nat) (swRow : List Bool),
      addressedTo ext message s k d →
      (ext.messageDecodeCommon message (millis s) d).1.number = d.number →
      s.readings[d.number]? = some row → row.length = MRM_NODE_ANALOG_COUNT →
      s.switches[d.number]? = some swRow → swRow.length = MRM_NODE_SWITCHES_COUNT →
      ∃ b s', messageDecode cfg ext message s = .ok (b, s') ∧
        s'.servoDegrees = s.servoDegrees ∧
        (∀ j, j ≠ k → s'.devices[j]? = s.devices[j]?) ∧
        (∀ i, i ≠ d.number →
          s'.readings[i]? = s.readings[i]? ∧ s'.switches[i]? = s.switches[i]?)) := by
  constructor
  · intro h
    exact decodeLoop_none cfg ext message s s.devices 0 h
  · intro k d row swRow haddr hnum hrow hlen hsw hswl
    rw [← hnum] at hrow hsw
    obtain ⟨b, s', hdec⟩ := decodeFor_returns cfg ext message k d s row swRow hrow hlen hsw hswl
    obtain ⟨_, hservo, _, ⟨e, hdev, _⟩, _, _, hother⟩ :=
      decodeFor_frame cfg ext message k d s s' b hdec
    refine ⟨b, s', (messageDecode_addressed cfg ext message s k d haddr).trans hdec, hservo,
      ?_, ?_⟩
    · intro j hj
      rw [hdev]
      exact List.getElem?_set_ne (Ne.symm hj)
    · intro i hi
      rw [← hnum] at hi
      exact hother i hi

/-- A frame that no board of `twoBoards` sends, and a frame of sensor group 3
from the second board. -/
theorem C20_decode_touches_one_board_witness :
    ((∀ e ∈ twoBoards.devices, quietBus.isForMe 999 e = false) ∧
      messageDecode demoConfig quietBus ⟨999, [6, 1, 2, 0, 5, 0, 9, 0]⟩ twoBoards =
        .ok (false, twoBoards)) ∧
    (addressedTo quietBus ⟨371, [6, 1, 2, 0, 5, 0, 9, 0]⟩ { twoBoards with ms := 77 } 1
        { number := 1, canIdIn := 370, canIdOut := 371, alive := false, lastReadingsMs := 0 } ∧
      ∃ b s', messageDecode demoConfig quietBus ⟨371, [6, 1, 2, 0, 5, 0, 9, 0]⟩
            { twoBoards with ms := 77 } = .ok (b, s') ∧
        s'.servoDegrees = twoBoards.servoDegrees ∧
        (∀ j, j ≠ 1 → s'.devices[j]? = twoBoards.devices[j]?) ∧
        (∀ i, i ≠ 1 →
          s'.readings[i]? = twoBoards.readings[i]? ∧ s'.switches[i]? = twoBoards.switches[i]?)) :=
  ⟨⟨by decide,
      (C20_decode_touches_one_board demoConfig quietBus ⟨999, [6, 1, 2, 0, 5, 0, 9, 0]⟩
        twoBoards).1 (by decide)⟩,
    ⟨by decide, by decide, by decide⟩,
    (C20_decode_touches_one_board demoConfig quietBus ⟨371, [6, 1, 2, 0, 5, 0, 9, 0]⟩
      { twoBoards with ms := 77 }).2 1
      { number := 1, canIdIn := 370, canIdOut := 371, alive := false, lastReadingsMs := 0 }
      [0, 0, 0, 0, 0, 0, 0, 0, 0] [false, false, false, false, false]
      ⟨by decide, by decide, by decide⟩ (by decide) (by decide) (by decide) (by decide)
      (by decide)⟩

/-- The frame of the second board evaluated: the first board keeps its
stamp, readings and switches. -/
theorem second_board_frame_scenario :
    (messageDecode demoConfig quietBus ⟨371, [6, 1, 2, 0, 5, 0, 9, 0]⟩
        { twoBoards with ms := 77 }).map
        (fun r => (r.1, r.2.readings, r.2.devices.map Device.lastReadingsMs)) =
      .ok (true, [[0, 0, 0, 0, 0, 0, 0, 0, 0], [0, 0, 0, 0, 0, 0, 258, 5, 9]], [0, 77]) := by
  decide

/-! ## The rows of slots that are not registered yet -/

theorem slotsPristine_new (maxNumberOfBoards : Nat) :
    slotsPristine (Mrm_node.new maxNumberOfBoards) := by
  refine ⟨by simp [Mrm_node.new], ?_, ?_⟩
  · intro d hd
    simp [Mrm_node.new] at hd
  · intro i _ hi
    simp only [Mrm_node.new, List.length_replicate] at hi
    simp [Mrm_node.new, List.getElem?_replicate, hi]

theorem slotsPristine_add (cfg : Config) (s s' : Mrm_node) (hinv : slotsPristine s)
    (hadd : add cfg s = .ok s') : slotsPristine s' := by
  obtain ⟨hlen, hdev, hzero⟩ := hinv
  unfold add at hadd
  split at hadd
  · simp only [Except.ok.injEq] at hadd
    rw [← hadd]
    exact ⟨hlen, hdev, hzero⟩
  · split at hadd
    · simp at hadd
    · rename_i sw hsw
      split at hadd
      · simp at hadd
      · simp only [Except.ok.injEq] at hadd
        obtain ⟨r, hr, _⟩ := fillRow_row _ _ _ _ _ hsw
        obtain ⟨r', hfill, _, _⟩ :=
          fillRow_spec s.switches s.nextFree false r MRM_NODE_SWITCHES_COUNT hr (by
            unfold MRM_NODE_SWITCHES_COUNT
            omega)
        rw [hsw] at hfill
        rw [← hadd]
        refine ⟨?_, ?_, ?_⟩
        · show s.readings.length = sw.length
          rw [Option.some.inj hfill, List.length_set]
          exact hlen
        · intro d hd
          show d.number < s.nextFree + 1
          simp only [sensorBoardAdd, List.mem_append, List.mem_singleton] at hd
          rcases hd with h | h
          · exact Nat.lt_succ_of_lt (hdev d h)
          · rw [h]
            exact Nat.lt_succ_self _
        · intro i hi hil
          exact hzero i (by
            have : s.nextFree + 1 ≤ i := hi
            omega) hil

theorem decodeLoop_cases (cfg : Config) (ext : External) (message : CANMessage) (s : Mrm_node)
    (l : List Device) (j : Nat) :
    decodeLoop cfg ext message s l j = .ok (false, s) ∨
      ∃ k d, l[k]? = some d ∧
        decodeLoop cfg ext message s l j = decodeFor cfg ext message (j + k) d s := by
  induction l generalizing j with
  | nil => exact Or.inl rfl
  | cons e rest ih =>
    by_cases he : ext.isForMe message.id e = true
    · exact Or.inr ⟨0, e, by simp, by simp [decodeLoop, he]⟩
    · rcases ih (j + 1) with h | ⟨k, d, hk, h⟩
      · exact Or.inl (by simp only [decodeLoop, he]; exact h)
      · refine Or.inr ⟨k + 1, d, by simpa using hk, ?_⟩
        simp only [decodeLoop, he]
        rw [h]
        simp [Nat.add_assoc, Nat.add_comm 1 k]

theorem slotsPristine_messageDecode (cfg : Config) (ext : External) (message : CANMessage)
    (s s' : Mrm_node) (b : Bool) (hinv : slotsPristine s)
    (hnum : ∀ d ∈ s.devices, (ext.messageDecodeCommon message (millis s) d).1.number = d.number)
    (h : messageDecode cfg ext message s = .ok (b, s')) : slotsPristine s' := by
  obtain ⟨hlen, hdev, hzero⟩ := hinv
  unfold messageDecode at h
  rcases decodeLoop_cases cfg ext message s s.devices 0 with h0 | ⟨k, d, hk, h1⟩
  · rw [h0] at h
    simp only [Except.ok.injEq, Prod.mk.injEq] at h
    rw [← h.2]
    exact ⟨hlen, hdev, hzero⟩
  · rw [h1] at h
    have hmem : d ∈ s.devices := List.getElem?_mem hk
    obtain ⟨hnf, _, _, ⟨e, hset, he⟩, hrl, hsl, hother⟩ := decodeFor_frame cfg ext message _ d s s' b h
    rw [hnum d hmem] at he hother
    refine ⟨by rw [hrl, hsl]; exact hlen, ?_, ?_⟩
    · intro x hx
      rw [hset] at hx
      rw [hnf]
      rcases List.mem_or_eq_of_mem_set hx with hx | hx
      · exact hdev x hx
      · rw [hx, he]
        exact hdev d hmem
    · intro i hi hil
      rw [hnf] at hi
      rw [hrl] at hil
      have hne : i ≠ d.number := by
        have := hdev d hmem
        omega
      rw [(hother i hne).1]
      exact hzero i hi hil

theorem servoWrite_frame (cfg : Config) (servoNumber degrees deviceNumber : Nat)
    (s s' : Mrm_node) (h : servoWrite cfg servoNumber degrees deviceNumber s = .ok s') :
    s'.readings = s.readings ∧ s'.devices = s.devices ∧ s'.nextFree = s.nextFree ∧
      s'.switches = s.switches := by
  unfold servoWrite at h
  split at h
  · simp only [Except.ok.injEq] at h
    rw [← h]
    exact ⟨rfl, rfl, rfl, rfl⟩
  · split at h
    · simp at h
    · split at h
      · split at h
        · simp at h
        · simp only [Except.ok.injEq] at h
          rw [← h]
          exact ⟨rfl, rfl, rfl, rfl⟩
      · simp only [Except.ok.injEq] at h
        rw [← h]
        exact ⟨rfl, rfl, rfl, rfl⟩

theorem slotsPristine_servoWrite (cfg : Config) (servoNumber degrees deviceNumber : Nat)
    (s s' : Mrm_node) (hinv : slotsPristine s)
    (h : servoWrite cfg servoNumber degrees deviceNumber s = .ok s') : slotsPristine s' := by
  obtain ⟨h1, h2, h3, h4⟩ := servoWrite_frame cfg servoNumber degrees deviceNumber s s' h
  unfold slotsPristine at *
  rw [h1, h2, h3, h4]
  exact hinv

/-- A registration that went through had the rows of its slot. -/
theorem add_rows (cfg : Config) (s s' : Mrm_node) (hslot : s.nextFree < 8)
    (hadd : add cfg s = .ok s') :
    ∃ (swRow : List Bool) (sdRow : List Nat),
      s.switches[s.nextFree]? = some swRow ∧ MRM_NODE_SWITCHES_COUNT ≤ swRow.length ∧
      s.servoDegrees[s.nextFree]? = some sdRow ∧ MRM_NODE_SERVO_COUNT ≤ sdRow.length := by
  obtain ⟨canIn, canOut, haddr⟩ := addressFor_some cfg s.nextFree hslot
  unfold add at hadd
  rw [haddr] at hadd
  dsimp only at hadd
  split at hadd
  · simp at hadd
  · rename_i sw hsw
    split at hadd
    · simp at hadd
    · rename_i sd hsd
      obtain ⟨r1, hr1, hl1⟩ := fillRow_row _ _ _ _ _ hsw
      obtain ⟨r2, hr2, hl2⟩ := fillRow_row _ _ _ _ _ hsd
      exact ⟨r1, r2, hr1, hl1, hr2, hl2⟩

/-- C17: after an `add` into a slot below 8 that went through, on an object
whose unregistered rows are as the constructor left them, the five switches
of the slot are false, its nine readings are 0 and its three servo angles
are 0xFFFF; the first `servoWrite` for such a servo sends a frame for every
angle other than 0xFFFF and sends nothing (and changes nothing) for
0xFFFF. -/
theorem C17_registration_defaults (cfg : Config) (s s' : Mrm_node) (hinv : slotsPristine s)
    (hslot : s.nextFree < 8) (hadd : add cfg s = .ok s') :
    (∀ i, i < MRM_NODE_SWITCHES_COUNT → readCell s'.switches s.nextFree i = some false) ∧
    (∀ c, c < MRM_NODE_ANALOG_COUNT → readCell s'.readings s.nextFree c = some 0) ∧
    (∀ j, j < MRM_NODE_SERVO_COUNT → readCell s'.servoDegrees s.nextFree j = some 0xFFFF) ∧
    (∀ j A, j < MRM_NODE_SERVO_COUNT → A ≠ 0xFFFF →
      ∃ s'' frame, servoWrite cfg j A s.nextFree s' = .ok s'' ∧ s''.bus = s'.bus ++ [frame]) ∧
    (∀ j, j < MRM_NODE_SERVO_COUNT → servoWrite cfg j 0xFFFF s.nextFree s' = .ok s') := by
  obtain ⟨hlen, _, hzero⟩ := hinv
  obtain ⟨canIn, canOut, haddr⟩ := addressFor_some cfg s.nextFree hslot
  obtain ⟨swRow, sdRow, hsw, hswl, hsd, hsdl⟩ := add_rows cfg s s' hslot hadd
  obtain ⟨swRow', sdRow', hadd', hgsw, hgsd⟩ :=
    add_registers cfg s canIn canOut swRow sdRow haddr hsw hswl hsd hsdl
  rw [hadd'] at hadd
  have hs' := Except.ok.inj hadd
  have hi1 := lt_length_of_getElem? hsw
  have hi2 := lt_length_of_getElem? hsd
  have hswitch : ∀ i, i < MRM_NODE_SWITCHES_COUNT →
      readCell s'.switches s.nextFree i = some false := by
    intro i hi
    rw [← hs']
    show readCell (s.switches.set s.nextFree swRow') s.nextFree i = _
    rw [readCell_set_same _ _ _ _ hi1, hgsw, if_pos hi]
  have hservo : ∀ j, j < MRM_NODE_SERVO_COUNT →
      readCell s'.servoDegrees s.nextFree j = some 0xFFFF := by
    intro j hj
    rw [← hs']
    show readCell (s.servoDegrees.set s.nextFree sdRow') s.nextFree j = _
    rw [readCell_set_same _ _ _ _ hi2, hgsd, if_pos hj]
  refine ⟨hswitch, ?_, hservo, ?_, ?_⟩
  · intro c hc
    rw [← hs']
    show readCell s.readings s.nextFree c = _
    have hrow := hzero s.nextFree (Nat.le_refl _) (by rw [hlen]; exact hi1)
    simp [readCell, hrow, List.getElem?_replicate, hc]
  · intro j A hj hA
    obtain ⟨row, hrow, hcell⟩ := readCell_some (hservo j hj)
    exact ⟨_, _, servoWrite_changed cfg j A s.nextFree s' row 0xFFFF hj hrow hcell hA, rfl⟩
  · intro j hj
    exact servoWrite_same cfg j 0xFFFF s.nextFree s' hj (hservo j hj)

/-- The first `add` after the constructor for two boards. -/
theorem C17_registration_defaults_witness :
    slotsPristine (Mrm_node.new 2) ∧ (Mrm_node.new 2).nextFree < 8 ∧
      add demoConfig (Mrm_node.new 2) = .ok oneBoard ∧
      (∀ i, i < MRM_NODE_SWITCHES_COUNT →
        readCell oneBoard.switches (Mrm_node.new 2).nextFree i = some false) ∧
      (∀ c, c < MRM_NODE_ANALOG_COUNT →
        readCell oneBoard.readings (Mrm_node.new 2).nextFree c = some 0) ∧
      (∀ j, j < MRM_NODE_SERVO_COUNT →
        readCell oneBoard.servoDegrees (Mrm_node.new 2).nextFree j = some 0xFFFF) ∧
      (∀ j A, j < MRM_NODE_SERVO_COUNT → A ≠ 0xFFFF →
        ∃ s'' frame, servoWrite demoConfig j A (Mrm_node.new 2).nextFree oneBoard = .ok s'' ∧
          s''.bus = oneBoard.bus ++ [frame]) ∧
      (∀ j, j < MRM_NODE_SERVO_COUNT →
        servoWrite demoConfig j 0xFFFF (Mrm_node.new 2).nextFree oneBoard = .ok oneBoard) :=
  ⟨slotsPristine_new 2, by decide, by decide,
    C17_registration_defaults demoConfig (Mrm_node.new 2) oneBoard (slotsPristine_new 2)
      (by decide) (by decide)⟩

/-- A slot registered after frames have been decoded for the boards before
it: the second `add`, after a frame of sensor group 1 for the first board,
still finds the readings of slot 1 at 0. -/
theorem late_registration_scenario :
    ((messageDecode demoConfig quietBus ⟨369, [4, 1, 2, 0, 5, 0, 9, 0]⟩ oneBoard).bind
        (fun r => add demoConfig r.2)).map (fun t => (t.nextFree, t.readings, t.servoDegrees)) =
      .ok (2, [[258, 5, 9, 0, 0, 0, 0, 0, 0], [0, 0, 0, 0, 0, 0, 0, 0, 0]],
        [[65535, 65535, 65535], [65535, 65535, 65535]]) := by
  decide

theorem slotsPristine_of_tables (s t : Mrm_node) (h1 : t.readings = s.readings)
    (h2 : t.devices = s.devices) (h3 : t.nextFree = s.nextFree) (h4 : t.switches = s.switches)
    (hinv : slotsPristine s) : slotsPristine t := by
  unfold slotsPristine at *
  rw [h1, h2, h3, h4]
  exact hinv

theorem slotsPristine_pollWindow (ext : External) (deviceNumber startMs : Nat)
    (hdelay : ∀ u, slotsPristine u → slotsPristine (ext.delayMs u)) :
    ∀ (fuel : Nat) (s s' : Mrm_node) (b : Bool), slotsPristine s →
      pollWindow ext deviceNumber startMs fuel s = .ok (b, s') → slotsPristine s' := by
  intro fuel
  induction fuel with
  | zero =>
    intro s s' b _ h
    simp [pollWindow] at h
  | succ fuel ih =>
    intro s s' b hinv h
    rw [pollWindow] at h
    split at h
    · split at h
      · simp at h
      · split at h
        · simp only [Except.ok.injEq, Prod.mk.injEq] at h
          rw [← h.2]
          exact hinv
        · exact ih _ _ _ (hdelay s hinv) h
    · simp only [Except.ok.injEq, Prod.mk.injEq] at h
      rw [← h.2]
      exact hinv

theorem slotsPristine_probe (ext : External) (fuel deviceNumber : Nat)
    (hdelay : ∀ u, slotsPristine u → slotsPristine (ext.delayMs u)) :
    ∀ (tries : Nat) (s s' : Mrm_node) (b : Bool), slotsPristine s →
      probe ext fuel deviceNumber tries s = .ok (b, s') → slotsPristine s' := by
  intro tries
  induction tries with
  | zero =>
    intro s s' b hinv h
    simp only [probe, Except.ok.injEq, Prod.mk.injEq] at h
    rw [← h.2]
    exact slotsPristine_of_tables s _ rfl rfl rfl rfl hinv
  | succ tries ih =>
    intro s s' b hinv h
    rw [probe] at h
    have hstart : slotsPristine (start deviceNumber 0 s) :=
      slotsPristine_of_tables s _ rfl rfl rfl rfl hinv
    cases hw : pollWindow ext deviceNumber (millis (start deviceNumber 0 s)) fuel
        (start deviceNumber 0 s) with
    | error e => simp [hw] at h
    | ok r =>
      obtain ⟨b2, s2⟩ := r
      have h2 := slotsPristine_pollWindow ext deviceNumber _ hdelay fuel _ s2 b2 hstart hw
      cases b2 with
      | true =>
        simp only [hw, Except.ok.injEq, Prod.mk.injEq] at h
        rw [← h.2]
        exact h2
      | false =>
        simp only [hw] at h
        exact ih s2 s' b h2 h

/-- The invariant of the unregistered rows survives `started` when it
survives what runs during `delayMs(1)`. -/
theorem slotsPristine_started (cfg : Config) (ext : External) (fuel deviceNumber : Nat)
    (s s' : Mrm_node) (b : Bool)
    (hdelay : ∀ u, slotsPristine u → slotsPristine (ext.delayMs u)) (hinv : slotsPristine s)
    (h : started cfg ext fuel deviceNumber s = .ok (b, s')) : slotsPristine s' := by
  unfold started at h
  split at h
  · simp at h
  · split at h
    · exact slotsPristine_probe ext fuel deviceNumber hdelay 8 s s' b hinv h
    · simp only [Except.ok.injEq, Prod.mk.injEq] at h
      rw [← h.2]
      exact hinv

theorem slotsPristine_reading (cfg : Config) (ext : External)
    (fuel receiverNumberInSensor deviceNumber : Nat) (s s' : Mrm_node) (v : Nat)
    (hdelay : ∀ u, slotsPristine u → slotsPristine (ext.delayMs u)) (hinv : slotsPristine s)
    (h : reading cfg ext fuel receiverNumberInSensor deviceNumber s = .ok (v, s')) :
    slotsPristine s' := by
  unfold reading at h
  split at h
  · simp only [Except.ok.injEq, Prod.mk.injEq] at h
    rw [← h.2]
    exact slotsPristine_of_tables s _ rfl rfl rfl rfl hinv
  · cases hst : started cfg ext fuel deviceNumber s with
    | error e => simp [hst] at h
    | ok r =>
      obtain ⟨b, s1⟩ := r
      have h1 := slotsPristine_started cfg ext fuel deviceNumber s s1 b hdelay hinv hst
      cases b with
      | true =>
        simp only [hst] at h
        split at h
        · simp at h
        · simp only [Except.ok.injEq, Prod.mk.injEq] at h
          rw [← h.2]
          exact h1
      | false =>
        simp only [hst, Except.ok.injEq, Prod.mk.injEq] at h
        rw [← h.2]
        exact h1

/-! ## `started` and the alive flag -/

theorem iterate_alive (ext : External)
    (halive : ∀ u, (ext.delayMs u).devices.map Device.alive = u.devices.map Device.alive)
    (n : Nat) (t : Mrm_node) :
    (ext.delayMs^[n] t).devices.map Device.alive = t.devices.map Device.alive := by
  induction n generalizing t with
  | zero => rfl
  | succ n ih => rw [Function.iterate_succ_apply, ih, halive]

theorem afterRounds_alive (ext : External) (deviceNumber : Nat) (s : Mrm_node)
    (halive : ∀ u, (ext.delayMs u).devices.map Device.alive = u.devices.map Device.alive)
    (r : Nat) :
    (afterRounds ext deviceNumber s r).devices.map Device.alive = s.devices.map Device.alive := by
  induction r with
  | zero => rfl
  | succ r ih =>
    rw [afterRounds, iterate_alive ext halive, ← ih]
    rfl

/-- C19, as amended: when no poll of the eight rounds sees a reply (every
`delayMs(1)` advancing the clock by one millisecond, sending nothing and
leaving the alive flags alone), `started` returns false and writes the
"dead" message; the alive flag of every device is what it was before the
call, `started` does not write it. -/
theorem C19_alive_flag_not_written (cfg : Config) (ext : External) (fuel deviceNumber : Nat)
    (s : Mrm_node) (d : Device) (hfuel : 50 < fuel)
    (hd : s.devices[deviceNumber]? = some d)
    (hstale : usub32 (millis s) d.lastReadingsMs > cfg.MRM_NODE_INACTIVITY_ALLOWED_MS
      ∨ d.lastReadingsMs = 0)
    (hclock : ∀ u, millis (ext.delayMs u) = (millis u + 1) % 4294967296)
    (hbus : ∀ u, (ext.delayMs u).bus = u.bus)
    (halive : ∀ u, (ext.delayMs u).devices.map Device.alive = u.devices.map Device.alive)
    (hnone : ∀ i, i < 8 → ∀ j, j < 50 →
      pollSees deviceNumber (pollState ext deviceNumber s i j) = some false) :
    ∃ s', started cfg ext fuel deviceNumber s = .ok (false, s') ∧
      s'.errorMessage = ErrorMessage.dead deviceNumber ∧
      s'.bus = s.bus ++ List.replicate 8 (BusEvent.start deviceNumber 0) ∧
      s'.devices.map Device.alive = s.devices.map Device.alive := by
  obtain ⟨h1, h2⟩ :=
    started_unanswered cfg ext fuel deviceNumber s d hfuel hd hstale hclock hbus hnone
  exact ⟨_, h1, rfl, h2, afterRounds_alive ext deviceNumber s halive 8⟩

theorem tick_clock (u : Mrm_node) : millis (tick u) = (millis u + 1) % 4294967296 := by
  unfold tick millis
  dsimp only
  omega

/-- The board of `aliveBoard`, whose last frame is 4923 ms old, on the quiet
bus. -/
theorem C19_alive_flag_not_written_witness :
    (50 < 51 ∧
      (usub32 (millis aliveBoard) 77 > demoConfig.MRM_NODE_INACTIVITY_ALLOWED_MS ∨ (77 : Nat) = 0) ∧
      ∀ i, i < 8 → ∀ j, j < 50 →
        pollSees 0 (pollState quietBus 0 aliveBoard i j) = some false) ∧
    ∃ s', started demoConfig quietBus 51 0 aliveBoard = .ok (false, s') ∧
      s'.errorMessage = ErrorMessage.dead 0 ∧
      s'.bus = aliveBoard.bus ++ List.replicate 8 (BusEvent.start 0 0) ∧
      s'.devices.map Device.alive = aliveBoard.devices.map Device.alive :=
  ⟨⟨by decide, by decide, by decide⟩,
    C19_alive_flag_not_written demoConfig quietBus 51 0 aliveBoard
      { number := 0, canIdIn := 368, canIdOut := 369, alive := true, lastReadingsMs := 77 }
      (by decide) (by decide) (by decide) tick_clock (fun _ => rfl) (fun _ => rfl) (by decide)⟩

/-- C19 as stated fails on a board that the base class has marked alive:
its last frame is 4923 ms old and nothing arrives; `started` sends eight
start requests, writes the "dead" message and returns false, and the alive
flag of the board is still true. -/
theorem C19_alive_flag_counterexample :
    aliveBoard.devices.map Device.alive = [true] ∧
      (started demoConfig quietBus 51 0 aliveBoard).map
          (fun r => (r.1, r.2.errorMessage, r.2.bus, r.2.devices.map Device.alive)) =
        .ok (false, ErrorMessage.dead 0, List.replicate 8 (BusEvent.start 0 0), [true]) := by
  decide

/-! ## Where the claims as first stated fail -/

/-- C5 as stated fails when the reply comes during the last `delayMs(1)` of
a window.  The board has never been updated and the clock shows 1000 at the
call.  With the reply at 1150 no poll of rounds 1 to 3 sees it, the last
`delayMs(1)` of window 3 brings `lastReadingsMs` within 100 ms of the clock,
and `started` returns true after four start requests, not three.  With the
reply at 1400, in the last `delayMs(1)` of window 8, `started` returns false
although `lastReadingsMs` equals the clock at the return. -/
theorem C5_last_delay_counterexample :
    ((∀ i, i < 3 → ∀ j, j < 50 →
        pollSees 0 (pollState (replyAt 1150) 0 { oneBoard with ms := 1000 } i j) = some false) ∧
      pollSees 0 ((replyAt 1150).delayMs
        (pollState (replyAt 1150) 0 { oneBoard with ms := 1000 } 2 49)) = some true ∧
      (started demoConfig (replyAt 1150) 51 0 { oneBoard with ms := 1000 }).map
          (fun r => (r.1, r.2.bus)) =
        .ok (true, List.replicate 4 (BusEvent.start 0 0))) ∧
    (started demoConfig (replyAt 1400) 51 0 { oneBoard with ms := 1000 }).map
        (fun r => (r.1, r.2.bus, r.2.devices.map Device.lastReadingsMs, r.2.ms)) =
      .ok (false, List.replicate 8 (BusEvent.start 0 0), [1400], 1400) := by
  decide

end MrmNode
